import Mathlib

/-!
Shallow embedding of the auto-trade2 backtesting core: the event-driven
backtest simulator (`BacktestEngine`), the moving-average crossover signal
generator (`MovingAverageCrossover`), the genetic parameter optimizer
(`StrategyOptimizer`) and the Monte Carlo resampler
(`ImprovedBacktestEngine.runMonteCarloSimulation`).

JavaScript floating-point numbers are modelled as rationals (`ℚ`), with
one exception: `calculateKellyCriterion` can produce `NaN` (the
`payoffRatio = 0/0` corner on an all-zero-profit history), so alongside the
rational-convention model there is a `JsNum` type (`finite`/`±Infinity`/
`NaN`) with IEEE-754 special-value arithmetic and a float-faithful
`calculateKellyCriterionJs`; `kellyJs_eq_finite` proves the two models
agree everywhere outside that corner.  `Math.sqrt` (used only inside the
Sharpe-ratio statistic) is not rational-valued, so the definitions take an
abstract `sqrtFn : ℚ → ℚ` parameter; no claim depends on its value.
-/

namespace AutoTrade

/-- Trade direction.  The source uses the strings "BUY" / "SELL"; every
signal and position in the repository carries one of exactly these two
values. -/
inductive TradeType where
  | buy
  | sell
deriving DecidableEq, Repr

/-- `"BUY" → "SELL"` and vice versa (used for the forced close at the end of
a run). -/
def TradeType.opposite : TradeType → TradeType
  | .buy => .sell
  | .sell => .buy

/-- One OHLCV bar. -/
structure Candle where
  time : Int
  openPrice : ℚ
  high : ℚ
  low : ℚ
  close : ℚ
  volume : ℚ
deriving DecidableEq, Repr

/-- A strategy directive as produced by `generateBacktestSignals` and the
synthetic stop-loss / take-profit signals built inside the engine.
`reason` is set only on the synthetic signals (`"STOP_LOSS"` /
`"TAKE_PROFIT"`); `source` only on strategy signals. -/
structure Signal where
  type : TradeType
  price : ℚ
  time : Int
  candleIndex : Nat
  reason : Option String
  source : Option String
deriving DecidableEq, Repr

/-- The single open exposure owned by the engine. -/
structure Position where
  type : TradeType
  entryPrice : ℚ
  units : ℚ
  fee : ℚ
  entryTime : Int
  entryCandleIndex : Nat
  stopLossPrice : ℚ
  takeProfitPrice : ℚ
deriving DecidableEq, Repr

/-- A closed round trip, appended by `closePosition`. -/
structure Trade where
  type : TradeType
  entryPrice : ℚ
  exitPrice : ℚ
  units : ℚ
  entryTime : Int
  exitTime : Int
  entryCandleIndex : Nat
  exitCandleIndex : Nat
  profit : ℚ
  fee : ℚ
  exitReason : String
deriving DecidableEq, Repr

/-- One balance / mark-to-market snapshot, appended once per processed
candle. -/
structure EquityPoint where
  time : Int
  balance : ℚ
  equity : ℚ
deriving DecidableEq, Repr

/-- The options resolved in the `BacktestEngine` constructor. -/
structure EngineConfig where
  initialBalance : ℚ
  fee : ℚ
  slippage : ℚ
  positionSizePercent : ℚ
  stopLossPercent : ℚ
  takeProfitPercent : ℚ
  useAtrPositionSizing : Bool
  atrPeriod : Nat
  atrMultiplier : ℚ
  maxRiskPerTradePercent : ℚ
deriving DecidableEq, Repr

/-- The constructor defaults: balance 10000, fee and slippage 0.1%, position
size 1% (from `config.riskManagement.positionSizePercent`), stop-loss 2%,
take-profit 4%, ATR sizing off. -/
def defaultConfig : EngineConfig :=
  { initialBalance := 10000
    fee := 1/1000
    slippage := 1/1000
    positionSizePercent := 1
    stopLossPercent := 2
    takeProfitPercent := 4
    useAtrPositionSizing := false
    atrPeriod := 14
    atrMultiplier := 2
    maxRiskPerTradePercent := 1 }

/-- The mutable engine fields reset at the start of every `run`. -/
structure EngineState where
  currentBalance : ℚ
  trades : List Trade
  equity : List EquityPoint
  maxDrawdown : ℚ
  position : Option Position
deriving DecidableEq, Repr

/-- The summary object produced by `generateSummary`. -/
structure Summary where
  initialBalance : ℚ
  finalBalance : ℚ
  profit : ℚ
  profitPercent : ℚ
  totalTrades : Nat
  winningTrades : Nat
  losingTrades : Nat
  winRate : ℚ
  avgWin : ℚ
  avgLoss : ℚ
  profitFactor : ℚ
  maxDrawdownPercent : ℚ
  sharpRatio : ℚ
  avgHoldingPeriod : ℚ
  raroc : ℚ
  stopLossRate : ℚ
  takeProfitRate : ℚ
deriving DecidableEq, Repr

/-- The object `run` returns.  A JavaScript object key that is absent on a
given return path is modelled as `none`: the failure path carries only
`error`, the zero-signal path carries no `equity` key. -/
structure RunResult where
  success : Bool
  error : Option String
  result : Option Summary
  trades : Option (List Trade)
  signals : Option (List Signal)
  equity : Option (List EquityPoint)
deriving DecidableEq, Repr

/-- The strategy capability consumed by the engine: the
`generateBacktestSignals` method.  (The engine's `typeof … === "function"`
guard is enforced here by the type.) -/
structure Strategy where
  generate : List Candle → List Signal

/-- An all-zero candle, standing for a JavaScript out-of-range array access
that the loop bounds keep unreachable. -/
def dummyCandle : Candle :=
  { time := 0, openPrice := 0, high := 0, low := 0, close := 0, volume := 0 }

namespace BacktestEngine

/-- `Number.MAX_SAFE_INTEGER`, used as the profit-factor sentinel. -/
def maxSafeInteger : ℚ := 9007199254740991

/-- `adjustPrice`: slippage adjustment — BUY fills higher, SELL lower. -/
def adjustPrice (cfg : EngineConfig) (price : ℚ) : TradeType → ℚ
  | .buy => price * (1 + cfg.slippage)
  | .sell => price * (1 - cfg.slippage)

/-- The winning-trade filter `trade.profit > 0` used by both
`generateSummary` and `calculateKellyCriterion`. -/
def winningOf (trades : List Trade) : List Trade :=
  trades.filter fun t => decide (0 < t.profit)

/-- The losing-trade filter `trade.profit <= 0` used by both
`generateSummary` and `calculateKellyCriterion`. -/
def losingOf (trades : List Trade) : List Trade :=
  trades.filter fun t => decide (t.profit ≤ 0)

/-- `this.trades.slice(-30)`: the last (at most) 30 closed trades. -/
def recentTrades (trades : List Trade) : List Trade :=
  trades.drop (trades.length - 30)

/-- The win rate over the recent window inside `calculateKellyCriterion`. -/
def kellyWinRate (trades : List Trade) : ℚ :=
  ((winningOf (recentTrades trades)).length : ℚ) /
    ((recentTrades trades).length : ℚ)

/-- Average win over the recent window (0 when there are no winners). -/
def kellyAvgWin (trades : List Trade) : ℚ :=
  let winning := winningOf (recentTrades trades)
  if 0 < winning.length then ((winning.map (·.profit)).sum) / (winning.length : ℚ)
  else 0

/-- Average loss magnitude over the recent window (default 1 when there are
no losers). -/
def kellyAvgLoss (trades : List Trade) : ℚ :=
  let losing := losingOf (recentTrades trades)
  if 0 < losing.length then |(losing.map (·.profit)).sum| / (losing.length : ℚ)
  else 1

/-- The unclamped Kelly value `W - (1-W)/R` with `R = avgWin / avgLoss`. -/
def kellyRaw (trades : List Trade) : ℚ :=
  let payoffRatio := kellyAvgWin trades / kellyAvgLoss trades
  kellyWinRate trades - (1 - kellyWinRate trades) / payoffRatio

/-- `calculateKellyCriterion` under the rational convention `x / 0 = 0`.
This agrees with the JavaScript floating-point computation on every input
except one corner: when the recent window (≥ 10 trades) has no winner and
every loser has profit exactly 0, the JS computes `payoffRatio = 0/0 = NaN`
and the clamp propagates `NaN`, whereas this convention collapses the same
corner to the `0.1` clamp.  The float-faithful version is
`calculateKellyCriterionJs` below, and `kellyJs_eq_finite` proves the two
agree off that corner (the engine never reaches 10 trades in any run used
by a claim, so the rational engine model is unaffected). -/
def calculateKellyCriterion (trades : List Trade) : ℚ :=
  if trades.length < 10 then 1/2
  else min (max (kellyRaw trades / 2) (1/10)) 1

/-- A JavaScript number as far as the Kelly computation can observe it: a
finite value (kept exact — rounding of finite float arithmetic is not
modelled), one of the two infinities, or `NaN`. -/
inductive JsNum where
  | finite (q : ℚ)
  | posInf
  | negInf
  | nan
deriving DecidableEq, Repr

/-- JavaScript division on `JsNum`: finite/0 yields `±Infinity` by the
numerator's sign and `0/0` yields `NaN`; `NaN` propagates; a finite value
over an infinity is 0.  (The sign of JavaScript's `-0` is not modelled;
every division the Kelly path performs has nonnegative operands.) -/
def jsDiv : JsNum → JsNum → JsNum
  | .nan, _ => .nan
  | _, .nan => .nan
  | .finite a, .finite b =>
    if b = 0 then (if a = 0 then .nan else if 0 < a then .posInf else .negInf)
    else .finite (a / b)
  | .finite _, .posInf => .finite 0
  | .finite _, .negInf => .finite 0
  | .posInf, .finite b => if 0 ≤ b then .posInf else .negInf
  | .negInf, .finite b => if 0 ≤ b then .negInf else .posInf
  | .posInf, .posInf => .nan
  | .posInf, .negInf => .nan
  | .negInf, .posInf => .nan
  | .negInf, .negInf => .nan

/-- JavaScript subtraction on `JsNum`. -/
def jsSub : JsNum → JsNum → JsNum
  | .nan, _ => .nan
  | _, .nan => .nan
  | .finite a, .finite b => .finite (a - b)
  | .finite _, .posInf => .negInf
  | .finite _, .negInf => .posInf
  | .posInf, .finite _ => .posInf
  | .negInf, .finite _ => .negInf
  | .posInf, .posInf => .nan
  | .posInf, .negInf => .posInf
  | .negInf, .posInf => .negInf
  | .negInf, .negInf => .nan

/-- `Math.max` on `JsNum` (`NaN` absorbs). -/
def jsMax : JsNum → JsNum → JsNum
  | .nan, _ => .nan
  | _, .nan => .nan
  | .posInf, _ => .posInf
  | _, .posInf => .posInf
  | .negInf, b => b
  | a, .negInf => a
  | .finite a, .finite b => .finite (max a b)

/-- `Math.min` on `JsNum` (`NaN` absorbs). -/
def jsMin : JsNum → JsNum → JsNum
  | .nan, _ => .nan
  | _, .nan => .nan
  | .negInf, _ => .negInf
  | _, .negInf => .negInf
  | .posInf, b => b
  | a, .posInf => a
  | .finite a, .finite b => .finite (min a b)

/-- `calculateKellyCriterion` under IEEE-754 special-value semantics: the
win rate and the two averages are finite (exact sums and counts over a
nonempty window), and the subsequent `payoffRatio = avgWin / avgLoss`,
`kelly = winRate - (1 - winRate)/payoffRatio`, halving and
`Math.min(Math.max(kelly, 0.1), 1.0)` are performed on `JsNum`, so a
`0/0 = NaN` propagates to the result exactly as in the source. -/
def calculateKellyCriterionJs (trades : List Trade) : JsNum :=
  if trades.length < 10 then .finite (1/2)
  else
    let payoffRatio :=
      jsDiv (.finite (kellyAvgWin trades)) (.finite (kellyAvgLoss trades))
    let kelly :=
      jsSub (.finite (kellyWinRate trades))
        (jsDiv (.finite (1 - kellyWinRate trades)) payoffRatio)
    jsMin (jsMax (jsDiv kelly (.finite 2)) (.finite (1/10))) (.finite 1)

/-- `calculatePositionSize`: percent of balance, damped as the balance
multiple grows, times the Kelly factor. -/
def calculatePositionSize (cfg : EngineConfig) (st : EngineState) : ℚ :=
  let basePositionSize := st.currentBalance * (cfg.positionSizePercent / 100)
  let balanceMultiple := st.currentBalance / cfg.initialBalance
  let adjustmentFactor : ℚ :=
    if balanceMultiple > 10 then 1/2
    else if balanceMultiple > 5 then 7/10
    else if balanceMultiple > 2 then 9/10
    else 1
  basePositionSize * adjustmentFactor * calculateKellyCriterion st.trades

/-- `calculateEquity`: mark-to-market account value at `currentPrice`. -/
def calculateEquity (st : EngineState) (currentPrice : ℚ) : ℚ :=
  match st.position with
  | none => st.currentBalance
  | some pos =>
    match pos.type with
    | .buy => st.currentBalance + pos.units * currentPrice
    | .sell =>
      st.currentBalance +
        (pos.units * pos.entryPrice + (pos.entryPrice - currentPrice) * pos.units)

/-- The peak/drawdown scan of `updateMaxDrawdown` over the recorded equity
points, starting from the initial balance. -/
def maxDrawdownOfEquity (initialBalance : ℚ) (eq : List EquityPoint) : ℚ :=
  (eq.foldl
    (fun (acc : ℚ × ℚ) pt =>
      let peak := if pt.equity > acc.1 then pt.equity else acc.1
      let drawdown := (peak - pt.equity) / peak
      (peak, if drawdown > acc.2 then drawdown else acc.2))
    (initialBalance, 0)).2

/-- `updateMaxDrawdown`: recompute the maximum drawdown from the equity
curve (no-op with fewer than two points). -/
def updateMaxDrawdown (cfg : EngineConfig) (st : EngineState) : EngineState :=
  if st.equity.length < 2 then st
  else { st with maxDrawdown := maxDrawdownOfEquity cfg.initialBalance st.equity }

/-- `updateMaxDrawdownWithCurrentPrice`: widen the max drawdown using the
mark-to-market equity at the given price. -/
def updateMaxDrawdownWithCurrentPrice (cfg : EngineConfig) (st : EngineState)
    (currentPrice : ℚ) : EngineState :=
  let currentEquity := calculateEquity st currentPrice
  let peak0 := st.equity.foldl
    (fun peak pt => if pt.equity > peak then pt.equity else peak) cfg.initialBalance
  let peak := if currentEquity > peak0 then currentEquity else peak0
  let drawdown := (peak - currentEquity) / peak
  if drawdown > st.maxDrawdown then { st with maxDrawdown := drawdown } else st

/-- `openPosition`: slippage-adjust the entry, size the position (ATR-based
when enabled and the ATR value is truthy, otherwise percent-based with the
Kelly-scaled size), set stop-loss / take-profit and pay the entry fee.
Note: only the fee is subtracted from the balance — the purchase cost of a
long position is never debited. -/
def openPosition (cfg : EngineConfig) (st : EngineState) (signal : Signal)
    (atrValue : Option ℚ) : EngineState :=
  let entryPrice := adjustPrice cfg signal.price signal.type
  let atrBranch : Bool :=
    cfg.useAtrPositionSizing && (match atrValue with
      | some a => decide (a ≠ 0)
      | none => false)
  let pair : ℚ × ℚ :=
    if atrBranch then
      let a := atrValue.getD 0
      let atrStopDistance := a * cfg.atrMultiplier
      let stopLossPrice :=
        match signal.type with
        | .buy => entryPrice - atrStopDistance
        | .sell => entryPrice + atrStopDistance
      let riskAmount := st.currentBalance * (cfg.maxRiskPerTradePercent / 100)
      let riskPerUnit := |entryPrice - stopLossPrice|
      (riskAmount / riskPerUnit, stopLossPrice)
    else
      let positionSize := calculatePositionSize cfg st
      let stopLossPrice :=
        match signal.type with
        | .buy => entryPrice * (1 - cfg.stopLossPercent / 100)
        | .sell => entryPrice * (1 + cfg.stopLossPercent / 100)
      (positionSize, stopLossPrice)
  let positionSize := pair.1
  let stopLossPrice := pair.2
  let takeProfitPrice :=
    match signal.type with
    | .buy => entryPrice * (1 + cfg.takeProfitPercent / 100)
    | .sell => entryPrice * (1 - cfg.takeProfitPercent / 100)
  let units := positionSize / entryPrice
  let fee := positionSize * cfg.fee
  { st with
    position := some
      { type := signal.type
        entryPrice := entryPrice
        units := units
        fee := fee
        entryTime := signal.time
        entryCandleIndex := signal.candleIndex
        stopLossPrice := stopLossPrice
        takeProfitPrice := takeProfitPrice }
    currentBalance := st.currentBalance - fee }

/-- `closePosition`: slippage-adjust the exit, realize the profit, credit
the balance, record the trade, recompute the drawdown and clear the
position.  For a long, the balance is credited with the full exit value
minus the exit fee (the entry cost was never debited); for a short, only
the price difference is credited. -/
def closePosition (cfg : EngineConfig) (st : EngineState) (signal : Signal) :
    EngineState :=
  match st.position with
  | none => st
  | some pos =>
    let exitPrice := adjustPrice cfg signal.price signal.type
    let result : ℚ × ℚ × ℚ :=
      match pos.type with
      | .buy =>
        let positionValue := pos.units * exitPrice
        let fee := positionValue * cfg.fee
        let profit := positionValue - pos.units * pos.entryPrice - fee - pos.fee
        (profit, positionValue, st.currentBalance + (positionValue - fee))
      | .sell =>
        let entryValue := pos.units * pos.entryPrice
        let exitValue := pos.units * exitPrice
        let fee := exitValue * cfg.fee
        let profit := entryValue - exitValue - fee - pos.fee
        (profit, entryValue, st.currentBalance + (entryValue - exitValue - fee))
    let profit := result.1
    let positionValue := result.2.1
    let newBalance := result.2.2
    let trade : Trade :=
      { type := pos.type
        entryPrice := pos.entryPrice
        exitPrice := exitPrice
        units := pos.units
        entryTime := pos.entryTime
        exitTime := signal.time
        entryCandleIndex := pos.entryCandleIndex
        exitCandleIndex := signal.candleIndex
        profit := profit
        fee := pos.fee + positionValue * cfg.fee
        exitReason := signal.reason.getD "SIGNAL" }
    let st1 := { st with
      currentBalance := newBalance
      trades := st.trades ++ [trade] }
    let st2 := updateMaxDrawdown cfg st1
    { st2 with position := none }

/-- `checkStopLossAndTakeProfit`: intrabar stop/target detection, in the
source's if/else-if order (long stop, short stop, long target, short
target). -/
def checkStopLossAndTakeProfit (cfg : EngineConfig) (st : EngineState)
    (candle : Candle) (candleIndex : Nat) : EngineState :=
  match st.position with
  | none => st
  | some pos =>
    if pos.type = .buy ∧ candle.low ≤ pos.stopLossPrice then
      closePosition cfg st
        { type := .sell, price := pos.stopLossPrice, time := candle.time
          candleIndex := candleIndex, reason := some "STOP_LOSS", source := none }
    else if pos.type = .sell ∧ candle.high ≥ pos.stopLossPrice then
      closePosition cfg st
        { type := .buy, price := pos.stopLossPrice, time := candle.time
          candleIndex := candleIndex, reason := some "STOP_LOSS", source := none }
    else if pos.type = .buy ∧ candle.high ≥ pos.takeProfitPrice then
      closePosition cfg st
        { type := .sell, price := pos.takeProfitPrice, time := candle.time
          candleIndex := candleIndex, reason := some "TAKE_PROFIT", source := none }
    else if pos.type = .sell ∧ candle.low ≤ pos.takeProfitPrice then
      closePosition cfg st
        { type := .buy, price := pos.takeProfitPrice, time := candle.time
          candleIndex := candleIndex, reason := some "TAKE_PROFIT", source := none }
    else st

/-- `processSignal`: update the intrabar drawdown at the signal price, then
open when flat, or close when the signal opposes the open position. -/
def processSignal (cfg : EngineConfig) (st : EngineState) (signal : Signal)
    (atrValue : Option ℚ) : EngineState :=
  let st1 := updateMaxDrawdownWithCurrentPrice cfg st signal.price
  match st1.position with
  | none => openPosition cfg st1 signal atrValue
  | some pos =>
    if pos.type ≠ signal.type then closePosition cfg st1 signal else st1

/-- The true-range sequence of `calculateAtr` (first bar: high − low;
afterwards the max of the three candidate ranges). -/
def trueRanges : List Candle → List ℚ
  | [] => []
  | c :: rest =>
    (c.high - c.low) ::
      (trueRangesFrom c rest)
where
  trueRangesFrom (prev : Candle) : List Candle → List ℚ
    | [] => []
    | c :: rest =>
      let highLow := c.high - c.low
      let highPrevClose := |c.high - prev.close|
      let lowPrevClose := |c.low - prev.close|
      max (max highLow highPrevClose) lowPrevClose :: trueRangesFrom c rest

/-- The ATR recurrence of `calculateAtr`: raw TR before the warm-up, a
simple average at index `period - 1`, then the smoothed
`(prev * (period-1) + tr) / period`. -/
def atrFromTrueRanges (period : Nat) (trs : List ℚ) : List ℚ :=
  (trs.enum).foldl
    (fun acc (pair : Nat × ℚ) =>
      let i := pair.1
      let tr := pair.2
      if i < period - 1 then acc ++ [tr]
      else if i = period - 1 then
        acc ++ [((trs.take period).sum) / (period : ℚ)]
      else
        let previousAtr := (acc.getLast?).getD 0
        acc ++ [(previousAtr * ((period : ℚ) - 1) + tr) / (period : ℚ)])
    []

/-- `calculateAtr`. -/
def calculateAtr (candles : List Candle) (period : Nat) : List ℚ :=
  atrFromTrueRanges period (trueRanges candles)

/-- `calculateSharpRatio` over the recorded equity points; `sqrtFn` stands
for `Math.sqrt`. -/
def calculateSharpRatio (sqrtFn : ℚ → ℚ) (st : EngineState) : ℚ :=
  if st.equity.length < 2 then 0
  else
    let dailyReturns :=
      (st.equity.zip st.equity.tail).map
        (fun pair => (pair.2.equity - pair.1.equity) / pair.1.equity)
    let avgReturn := dailyReturns.sum / (dailyReturns.length : ℚ)
    let variance :=
      ((dailyReturns.map (fun r => (r - avgReturn) ^ 2)).sum) /
        (dailyReturns.length : ℚ)
    let stdDev := sqrtFn variance
    if stdDev ≠ 0 then (avgReturn - 0) / stdDev * sqrtFn 252 else 0

/-- `calculateAverageHoldingPeriod` in candle counts. -/
def calculateAverageHoldingPeriod (st : EngineState) : ℚ :=
  if st.trades.length = 0 then 0
  else
    ((st.trades.map
        (fun t => (t.exitCandleIndex : ℚ) - (t.entryCandleIndex : ℚ))).sum) /
      (st.trades.length : ℚ)

/-- `generateSummary`. -/
def generateSummary (sqrtFn : ℚ → ℚ) (cfg : EngineConfig) (st : EngineState) :
    Summary :=
  let initialBalance := cfg.initialBalance
  let finalBalance := st.currentBalance
  let profit := finalBalance - initialBalance
  let profitPercent := profit / initialBalance * 100
  let winning := winningOf st.trades
  let losing := losingOf st.trades
  let totalTrades := st.trades.length
  let winRate :=
    if 0 < totalTrades then ((winning.length : ℚ) / (totalTrades : ℚ)) * 100 else 0
  let avgWin :=
    if 0 < winning.length then ((winning.map (·.profit)).sum) / (winning.length : ℚ)
    else 0
  let avgLoss :=
    if 0 < losing.length then ((losing.map (·.profit)).sum) / (losing.length : ℚ)
    else 0
  let profitFactor :=
    if 0 < winning.length then
      if 0 < losing.length then
        let totalLosses := |(losing.map (·.profit)).sum|
        if 0 < totalLosses then ((winning.map (·.profit)).sum) / totalLosses
        else maxSafeInteger
      else maxSafeInteger
    else 0
  let maxDrawdownPercent := st.maxDrawdown * 100
  let stopLossHits :=
    (st.trades.filter fun t => decide (t.exitReason = "STOP_LOSS")).length
  let takeProfitHits :=
    (st.trades.filter fun t => decide (t.exitReason = "TAKE_PROFIT")).length
  { initialBalance := initialBalance
    finalBalance := finalBalance
    profit := profit
    profitPercent := profitPercent
    totalTrades := totalTrades
    winningTrades := winning.length
    losingTrades := losing.length
    winRate := winRate
    avgWin := avgWin
    avgLoss := avgLoss
    profitFactor := profitFactor
    maxDrawdownPercent := maxDrawdownPercent
    sharpRatio := calculateSharpRatio sqrtFn st
    avgHoldingPeriod := calculateAverageHoldingPeriod st
    raroc := profitPercent / (if 0 < maxDrawdownPercent then maxDrawdownPercent else 1)
    stopLossRate :=
      if 0 < totalTrades then ((stopLossHits : ℚ) / (totalTrades : ℚ)) * 100 else 0
    takeProfitRate :=
      if 0 < totalTrades then ((takeProfitHits : ℚ) / (totalTrades : ℚ)) * 100 else 0 }

/-- The fresh state built at the top of `run`. -/
def initState (cfg : EngineConfig) : EngineState :=
  { currentBalance := cfg.initialBalance
    trades := []
    equity := []
    maxDrawdown := 0
    position := none }

/-- The per-candle body of `run`'s main loop: intrabar stop/target check,
then the signals whose `candleIndex` equals the current index, then one
equity point at the candle close. -/
def processCandle (cfg : EngineConfig) (signals : List Signal)
    (atrValues : List ℚ) (st : EngineState) (i : Nat) (candle : Candle) :
    EngineState :=
  let st1 :=
    match st.position with
    | some _ => checkStopLossAndTakeProfit cfg st candle i
    | none => st
  let currentSignals := signals.filter fun s => decide (s.candleIndex = i)
  let st2 :=
    currentSignals.foldl (fun s sg => processSignal cfg s sg (atrValues.get? i)) st1
  { st2 with
    equity := st2.equity ++
      [{ time := candle.time
         balance := st2.currentBalance
         equity := calculateEquity st2 candle.close }] }

/-- The `for (let i = 0; i < candles.length; i++)` loop of `run`. -/
def runLoop (cfg : EngineConfig) (signals : List Signal) (atrValues : List ℚ) :
    Nat → List Candle → EngineState → EngineState
  | _, [], st => st
  | i, candle :: rest, st =>
    runLoop cfg signals atrValues (i + 1) rest
      (processCandle cfg signals atrValues st i candle)

/-- `BacktestEngine.run`.  Empty input fails; a signal-less run returns the
zero-trade summary without an `equity` key; otherwise every candle is
processed in order and a still-open position is force-closed at the last
close (`candles[candles.length - 1]`). -/
def run (sqrtFn : ℚ → ℚ) (cfg : EngineConfig) (strategy : Strategy)
    (candles : List Candle) : RunResult :=
  match candles with
  | [] =>
    { success := false, error := some "データがありません", result := none
      trades := none, signals := none, equity := none }
  | c0 :: rest =>
    let candles := c0 :: rest
    let atrValues :=
      if cfg.useAtrPositionSizing then calculateAtr candles cfg.atrPeriod else []
    let signals := strategy.generate candles
    if signals = [] then
      { success := true, error := none
        result := some (generateSummary sqrtFn cfg (initState cfg))
        trades := some [], signals := some [], equity := none }
    else
      let stLoop := runLoop cfg signals atrValues 0 candles (initState cfg)
      let lastCandle := candles.getD (candles.length - 1) dummyCandle
      let stEnd :=
        match stLoop.position with
        | some pos =>
          closePosition cfg stLoop
            { type := pos.type.opposite, price := lastCandle.close
              time := lastCandle.time, candleIndex := candles.length - 1
              reason := none, source := none }
        | none => stLoop
      { success := true, error := none
        result := some (generateSummary sqrtFn cfg stEnd)
        trades := some stEnd.trades
        signals := some signals
        equity := some stEnd.equity }

end BacktestEngine

/-! ## Technical indicators (`technicalIndicators.js` wrapper) -/

/-- The `{macd, signal, histogram}` shape consumed by the strategy. -/
structure MacdBundle where
  macd : List ℚ
  signal : List ℚ
  histogram : List ℚ

/-- The `{upper, middle, lower}` shape consumed by the strategy. -/
structure BBands where
  upper : List ℚ
  middle : List ℚ
  lower : List ℚ

/-- Modelled from the spec: the repository's `technicalIndicators.sma`
wrapper delegates to the third-party `technicalindicators` library, whose
`SMA.calculate` returns the window means with the first `period - 1`
indices omitted — the output has length `n - period + 1` and its entry `j`
is the mean of the inputs `j .. j+period-1`.  (This truncation, not padding,
is what the strategy's candle-indexed accesses observe.) -/
def sma (values : List ℚ) (period : Nat) : List ℚ :=
  if period = 0 ∨ values.length < period then []
  else
    (List.range (values.length - period + 1)).map
      (fun j => (((values.drop j).take period).sum) / (period : ℚ))

/-- The third-party RSI / MACD / Bollinger-band computations, abstracted:
their numeric content is outside the repository, and no claim in scope
enables the filters that consume them. -/
structure Indicators where
  rsi : List ℚ → Nat → List ℚ
  macd : List ℚ → Nat → Nat → Nat → MacdBundle
  bollingerBands : List ℚ → Nat → ℚ → BBands

/-- JavaScript `a <= b` where either side may be `undefined` (undefined
comparisons are false). -/
def optLE : Option ℚ → Option ℚ → Bool
  | some a, some b => decide (a ≤ b)
  | _, _ => false

/-- JavaScript `a < b` with possibly-undefined sides. -/
def optLT : Option ℚ → Option ℚ → Bool
  | some a, some b => decide (a < b)
  | _, _ => false

/-- JavaScript `a >= b` with possibly-undefined sides. -/
def optGE : Option ℚ → Option ℚ → Bool
  | some a, some b => decide (b ≤ a)
  | _, _ => false

/-- JavaScript `a > b` with possibly-undefined sides. -/
def optGT : Option ℚ → Option ℚ → Bool
  | some a, some b => decide (b < a)
  | _, _ => false

namespace MovingAverageCrossover

/-- The strategy parameters after the constructor has applied its `||` /
`!== undefined` defaults.  Periods are naturals (every construction in the
repository, including the optimizer's integer ranges, supplies integers). -/
structure MAParams where
  shortPeriod : Nat
  longPeriod : Nat
  useRsi : Bool
  rsiPeriod : Nat
  rsiOverbought : ℚ
  rsiOversold : ℚ
  useVolume : Bool
  volumeThreshold : ℚ
  volumeAvgPeriod : Nat
  useTrend : Bool
  trendMaPeriod : Nat
  useMacd : Bool
  macdFastPeriod : Nat
  macdSlowPeriod : Nat
  macdSignalPeriod : Nat
  useBollingerBands : Bool
  bollingerPeriod : Nat
  bollingerStdDev : ℚ
  usePriceAction : Bool
  candlePatternStrength : ℚ
  generateAdditionalSignals : Bool
  filterStrength : String
deriving DecidableEq, Repr

/-- The number of enabled auxiliary filters counted at the top of
`applyFilters`. -/
def totalFilters (p : MAParams) : Nat :=
  (if p.useRsi then 1 else 0) + (if p.useVolume then 1 else 0) +
    (if p.useTrend then 1 else 0) + (if p.useMacd then 1 else 0) +
    (if p.useBollingerBands then 1 else 0) + (if p.usePriceAction then 1 else 0)

/-- The `switch (this.filterStrength)` assigning the required number of
passing filters: weak → 1 if any filter is enabled else 0; medium →
`Math.max(1, Math.ceil(total/2))`; strong → total; anything else (the
`default` branch) → `Math.ceil(total/2)`. -/
def requiredPassCount (p : MAParams) : Nat :=
  if p.filterStrength = "weak" then (if 0 < totalFilters p then 1 else 0)
  else if p.filterStrength = "medium" then max 1 ((totalFilters p + 1) / 2)
  else if p.filterStrength = "strong" then totalFilters p
  else (totalFilters p + 1) / 2

/-- The RSI filter vote (thresholds relaxed by 10 under weak strength). -/
def rsiVote (p : MAParams) (signalType : TradeType) (index : Nat)
    (rsiValues : List ℚ) : Nat :=
  if p.useRsi then
    match rsiValues.get? index with
    | some rsi =>
      let oversoldThreshold :=
        if p.filterStrength = "weak" then p.rsiOversold + 10 else p.rsiOversold
      let overboughtThreshold :=
        if p.filterStrength = "weak" then p.rsiOverbought - 10 else p.rsiOverbought
      if (signalType = TradeType.buy ∧ rsi ≤ oversoldThreshold) ∨
          (signalType = TradeType.sell ∧ overboughtThreshold ≤ rsi) then 1 else 0
    | none => 0
  else 0

/-- The volume filter vote (threshold multiplied by 0.7 under weak
strength). -/
def volumeVote (p : MAParams) (index : Nat) (volumes volumeAvg : List ℚ) : Nat :=
  if p.useVolume then
    match volumes.get? index, volumeAvg.get? index with
    | some volume, some avgVolume =>
      let volumeMultiplier :=
        if p.filterStrength = "weak" then p.volumeThreshold * (7/10)
        else p.volumeThreshold
      if avgVolume * volumeMultiplier ≤ volume then 1 else 0
    | _, _ => 0
  else 0

/-- The trend filter vote: price above (BUY) / below (SELL) the trend MA. -/
def trendVote (p : MAParams) (signalType : TradeType) (index : Nat)
    (closes trendMa : List ℚ) : Nat :=
  if p.useTrend then
    match trendMa.get? index, closes.get? index with
    | some trend, some price =>
      if (signalType = TradeType.buy ∧ trend < price) ∨
          (signalType = TradeType.sell ∧ price < trend) then 1 else 0
    | _, _ => 0
  else 0

/-- The MACD filter vote: MACD above signal with positive histogram (BUY),
symmetric for SELL. -/
def macdVote (p : MAParams) (signalType : TradeType) (index : Nat)
    (macdData : MacdBundle) : Nat :=
  if p.useMacd then
    match macdData.macd.get? index, macdData.signal.get? index,
        macdData.histogram.get? index with
    | some macd, some signal, some histogram =>
      if (signalType = TradeType.buy ∧ signal < macd ∧ 0 < histogram) ∨
          (signalType = TradeType.sell ∧ macd < signal ∧ histogram < 0) then 1
      else 0
    | _, _, _ => 0
  else 0

/-- The Bollinger-band filter vote: price between lower band and middle
(BUY), between middle and upper (SELL). -/
def bbVote (p : MAParams) (signalType : TradeType) (index : Nat)
    (closes : List ℚ) (bbands : BBands) : Nat :=
  if p.useBollingerBands then
    match bbands.upper.get? index, bbands.middle.get? index,
        bbands.lower.get? index with
    | some upper, some middle, some lower =>
      match closes.get? index with
      | some price =>
        if (signalType = TradeType.buy ∧ price < middle ∧ lower < price) ∨
            (signalType = TradeType.sell ∧ middle < price ∧ price < upper) then 1
        else 0
      | none => 0
    | _, _, _ => 0
  else 0

/-- The price-action filter vote: a candle body in the signal direction
covering more than 60% of the candle range (only checked past index 0). -/
def priceActionVote (p : MAParams) (signalType : TradeType) (index : Nat)
    (candles : List Candle) : Nat :=
  if p.usePriceAction ∧ 0 < index then
    match candles.get? index with
    | some currentCandle =>
      match signalType with
      | .buy =>
        if currentCandle.openPrice < currentCandle.close ∧
            (currentCandle.high - currentCandle.low) * (3/5) <
              currentCandle.close - currentCandle.openPrice then 1 else 0
      | .sell =>
        if currentCandle.close < currentCandle.openPrice ∧
            (currentCandle.high - currentCandle.low) * (3/5) <
              currentCandle.openPrice - currentCandle.close then 1 else 0
    | none => 0
  else 0

/-- The total number of filter votes accumulated by `applyFilters`. -/
def passedCount (p : MAParams) (signalType : TradeType) (index : Nat)
    (closes rsiValues volumes volumeAvg trendMa : List ℚ)
    (macdData : MacdBundle) (bbands : BBands) (candles : List Candle) : Nat :=
  rsiVote p signalType index rsiValues +
    volumeVote p index volumes volumeAvg +
    trendVote p signalType index closes trendMa +
    macdVote p signalType index macdData +
    bbVote p signalType index closes bbands +
    priceActionVote p signalType index candles

/-- `applyFilters`: the signal passes when the accumulated votes meet the
required count. -/
def applyFilters (p : MAParams) (signalType : TradeType) (index : Nat)
    (closes rsiValues volumes volumeAvg trendMa : List ℚ)
    (macdData : MacdBundle) (bbands : BBands) (candles : List Candle) : Bool :=
  decide (requiredPassCount p ≤
    passedCount p signalType index closes rsiValues volumes volumeAvg trendMa
      macdData bbands candles)

/-- A signal before the caller attaches `time` and `candleIndex`. -/
structure PartialSignal where
  type : TradeType
  price : ℚ
  source : String

/-- `generateAlternativeSignals`: RSI-extreme, MACD-cross and band-break
signals (only consulted when `generateAdditionalSignals` is enabled). -/
def generateAlternativeSignals (p : MAParams) (index : Nat)
    (closes rsiValues : List ℚ) (macdData : MacdBundle) (bbands : BBands) :
    List PartialSignal :=
  let currentPrice := closes.getD index 0
  let rsiSignals : List PartialSignal :=
    if p.useRsi then
      match rsiValues.get? index with
      | some rsi =>
        if rsi ≤ p.rsiOversold - 10 then
          [{ type := .buy, price := currentPrice, source := "RSI_EXTREME_OVERSOLD" }]
        else if p.rsiOverbought + 10 ≤ rsi then
          [{ type := .sell, price := currentPrice, source := "RSI_EXTREME_OVERBOUGHT" }]
        else []
      | none => []
    else []
  let macdSignals : List PartialSignal :=
    if p.useMacd ∧ 1 < index ∧ (macdData.macd.get? index).isSome ∧
        (macdData.signal.get? index).isSome then
      let macdCurrent := macdData.macd.get? index
      let signalCurrent := macdData.signal.get? index
      let macdPrev := macdData.macd.get? (index - 1)
      let signalPrev := macdData.signal.get? (index - 1)
      if optLT macdPrev signalPrev && optGT macdCurrent signalCurrent then
        [{ type := .buy, price := currentPrice, source := "MACD_BULLISH_CROSS" }]
      else if optGT macdPrev signalPrev && optLT macdCurrent signalCurrent then
        [{ type := .sell, price := currentPrice, source := "MACD_BEARISH_CROSS" }]
      else []
    else []
  let bbSignals : List PartialSignal :=
    if p.useBollingerBands ∧ (bbands.upper.get? index).isSome ∧
        (bbands.lower.get? index).isSome then
      let upperBand := (bbands.upper.get? index).getD 0
      let lowerBand := (bbands.lower.get? index).getD 0
      if currentPrice < lowerBand * (99/100) then
        [{ type := .buy, price := currentPrice, source := "BB_LOWER_BREAK" }]
      else if upperBand * (101/100) < currentPrice then
        [{ type := .sell, price := currentPrice, source := "BB_UPPER_BREAK" }]
      else []
    else []
  rsiSignals ++ macdSignals ++ bbSignals

/-- `generateBacktestSignals`: compute the (truncated) indicator arrays,
then scan candle indices from `maxPeriod` onward, detecting short/long MA
crossovers by direct candle-index access into the truncated arrays and
gating each crossover behind `applyFilters`. -/
def generateBacktestSignals (ind : Indicators) (p : MAParams)
    (candles : List Candle) : List Signal :=
  match candles with
  | [] => []
  | _ =>
    let closes := candles.map (·.close)
    let volumes := candles.map (·.volume)
    let shortMa := sma closes p.shortPeriod
    let longMa := sma closes p.longPeriod
    let rsiValues := if p.useRsi then ind.rsi closes p.rsiPeriod else []
    let volumeAvg := if p.useVolume then sma volumes p.volumeAvgPeriod else []
    let trendMa := if p.useTrend then sma closes p.trendMaPeriod else []
    let macdData :=
      if p.useMacd then
        ind.macd closes p.macdFastPeriod p.macdSlowPeriod p.macdSignalPeriod
      else ⟨[], [], []⟩
    let bbands :=
      if p.useBollingerBands then
        ind.bollingerBands closes p.bollingerPeriod p.bollingerStdDev
      else ⟨[], [], []⟩
    let maxPeriod :=
      max p.longPeriod (max (if p.useRsi then p.rsiPeriod else 0)
        (max (if p.useVolume then p.volumeAvgPeriod else 0)
          (max (if p.useTrend then p.trendMaPeriod else 0)
            (max (if p.useMacd then max p.macdSlowPeriod p.macdSignalPeriod else 0)
              (if p.useBollingerBands then p.bollingerPeriod else 0)))))
    (List.range' maxPeriod (candles.length - maxPeriod)).foldl
      (fun signals i =>
        let shortPrev := shortMa.get? (i - 1)
        let longPrev := longMa.get? (i - 1)
        let shortCurrent := shortMa.get? i
        let longCurrent := longMa.get? i
        let isBullishCross := optLE shortPrev longPrev && optGT shortCurrent longCurrent
        let isBearishCross := optGE shortPrev longPrev && optLT shortCurrent longCurrent
        let signals1 :=
          if isBullishCross || isBearishCross then
            let signalType := if isBullishCross then TradeType.buy else TradeType.sell
            if applyFilters p signalType i closes rsiValues volumes volumeAvg trendMa
                macdData bbands candles then
              signals ++
                [{ type := signalType
                   price := (candles.getD i dummyCandle).close
                   time := (candles.getD i dummyCandle).time
                   candleIndex := i
                   reason := none
                   source := some "MA_CROSS" }]
            else signals
          else signals
        if p.generateAdditionalSignals then
          signals1 ++
            (generateAlternativeSignals p i closes rsiValues macdData bbands).map
              (fun ps =>
                { type := ps.type, price := ps.price
                  time := (candles.getD i dummyCandle).time
                  candleIndex := i, reason := none, source := some ps.source })
        else signals1)
      []

/-- The constructor arguments before defaulting: a JavaScript object whose
keys may be absent. -/
structure MAInput where
  shortPeriod : Option ℚ := none
  longPeriod : Option ℚ := none
  useRsi : Option Bool := none
  rsiPeriod : Option ℚ := none
  rsiOverbought : Option ℚ := none
  rsiOversold : Option ℚ := none
  useVolume : Option Bool := none
  volumeThreshold : Option ℚ := none
  volumeAvgPeriod : Option ℚ := none
  useTrend : Option Bool := none
  trendMaPeriod : Option ℚ := none
  useMacd : Option Bool := none
  macdFastPeriod : Option ℚ := none
  macdSlowPeriod : Option ℚ := none
  macdSignalPeriod : Option ℚ := none
  useBollingerBands : Option Bool := none
  bollingerPeriod : Option ℚ := none
  bollingerStdDev : Option ℚ := none
  usePriceAction : Option Bool := none
  candlePatternStrength : Option ℚ := none
  generateAdditionalSignals : Option Bool := none
  filterStrength : Option String := none

/-- JavaScript `value || default` for a numeric option (`0` is falsy). -/
def numOr (o : Option ℚ) (d : ℚ) : ℚ :=
  match o with
  | some v => if v = 0 then d else v
  | none => d

/-- `value || default` for a numeric option resolved to a period. -/
def natOr (o : Option ℚ) (d : Nat) : Nat :=
  match o with
  | some v => if v = 0 then d else (⌊v⌋).toNat
  | none => d

/-- `value || default` for a string option (`""` is falsy). -/
def strOr (o : Option String) (d : String) : String :=
  match o with
  | some v => if v = "" then d else v
  | none => d

/-- The field defaulting performed in the constructor body. -/
def resolve (input : MAInput) : MAParams :=
  { shortPeriod := natOr input.shortPeriod 9
    longPeriod := natOr input.longPeriod 21
    useRsi := input.useRsi.getD true
    rsiPeriod := natOr input.rsiPeriod 14
    rsiOverbought := numOr input.rsiOverbought 70
    rsiOversold := numOr input.rsiOversold 30
    useVolume := input.useVolume.getD true
    volumeThreshold := numOr input.volumeThreshold (3/2)
    volumeAvgPeriod := natOr input.volumeAvgPeriod 20
    useTrend := input.useTrend.getD true
    trendMaPeriod := natOr input.trendMaPeriod 50
    useMacd := input.useMacd.getD false
    macdFastPeriod := natOr input.macdFastPeriod 12
    macdSlowPeriod := natOr input.macdSlowPeriod 26
    macdSignalPeriod := natOr input.macdSignalPeriod 9
    useBollingerBands := input.useBollingerBands.getD false
    bollingerPeriod := natOr input.bollingerPeriod 20
    bollingerStdDev := numOr input.bollingerStdDev 2
    usePriceAction := input.usePriceAction.getD false
    candlePatternStrength := numOr input.candlePatternStrength (3/2)
    generateAdditionalSignals := input.generateAdditionalSignals.getD false
    filterStrength := strOr input.filterStrength "medium" }

/-- `validateParams`: the constructor's fail-fast checks, as the exception
they raise (if any). -/
def validateParams (p : MAParams) : Except String Unit :=
  if p.shortPeriod = 0 ∨ p.longPeriod = 0 then
    .error "移動平均線の期間は正の数である必要があります"
  else if p.longPeriod ≤ p.shortPeriod then
    .error "短期移動平均線の期間は長期移動平均線の期間よりも短い必要があります"
  else if p.useRsi ∧ p.rsiPeriod = 0 then
    .error "RSI期間は正の数である必要があります"
  else if p.useRsi ∧ p.rsiOverbought ≤ p.rsiOversold then
    .error "RSIの買われすぎレベルは売られすぎレベルよりも高い必要があります"
  else if p.useVolume ∧ p.volumeThreshold ≤ 0 then
    .error "ボリューム閾値は正の数である必要があります"
  else if p.useVolume ∧ p.volumeAvgPeriod = 0 then
    .error "ボリューム平均期間は正の数である必要があります"
  else if p.useTrend ∧ p.trendMaPeriod = 0 then
    .error "トレンドMA期間は正の数である必要があります"
  else if p.useTrend ∧ p.trendMaPeriod ≤ p.longPeriod then
    .error "トレンドMA期間は長期移動平均線の期間よりも長い必要があります"
  else if p.useMacd ∧ (p.macdFastPeriod = 0 ∨ p.macdSlowPeriod = 0 ∨
      p.macdSignalPeriod = 0) then
    .error "MACD期間は正の数である必要があります"
  else if p.useMacd ∧ p.macdSlowPeriod ≤ p.macdFastPeriod then
    .error "MACDの短期期間は長期期間よりも短い必要があります"
  else if p.useBollingerBands ∧ p.bollingerPeriod = 0 then
    .error "ボリンジャーバンド期間は正の数である必要があります"
  else if p.useBollingerBands ∧ p.bollingerStdDev ≤ 0 then
    .error "ボリンジャーバンド標準偏差は正の数である必要があります"
  else .ok ()

/-- `new MovingAverageCrossover(params)`: defaulting followed by the
fail-fast validation. -/
def mk (input : MAInput) : Except String MAParams :=
  (validateParams (resolve input)).map (fun _ => resolve input)

end MovingAverageCrossover

namespace StrategyOptimizer

/-- A `ParameterSet`: the optimizer's name → numeric-value mapping. -/
def ParameterSet : Type := List (String × ℚ)

instance : DecidableEq ParameterSet := by
  unfold ParameterSet
  infer_instance

/-- Property lookup on a parameter set. -/
def getParam (ps : ParameterSet) (name : String) : Option ℚ :=
  (ps.find? fun kv => decide (kv.1 = name)).map (·.2)

/-- How a numeric `ParameterSet` is seen by the `MovingAverageCrossover`
constructor: numeric fields pass through, the boolean toggles take the
truthiness of a supplied number (`filterStrength` is never part of the
numeric ranges the optimizer mutates, so it always defaults). -/
def psToInput (ps : ParameterSet) : MovingAverageCrossover.MAInput :=
  { shortPeriod := getParam ps "shortPeriod"
    longPeriod := getParam ps "longPeriod"
    useRsi := (getParam ps "useRsi").map fun v => decide (v ≠ 0)
    rsiPeriod := getParam ps "rsiPeriod"
    rsiOverbought := getParam ps "rsiOverbought"
    rsiOversold := getParam ps "rsiOversold"
    useVolume := (getParam ps "useVolume").map fun v => decide (v ≠ 0)
    volumeThreshold := getParam ps "volumeThreshold"
    volumeAvgPeriod := getParam ps "volumeAvgPeriod"
    useTrend := (getParam ps "useTrend").map fun v => decide (v ≠ 0)
    trendMaPeriod := getParam ps "trendMaPeriod"
    useMacd := (getParam ps "useMacd").map fun v => decide (v ≠ 0)
    macdFastPeriod := getParam ps "macdFastPeriod"
    macdSlowPeriod := getParam ps "macdSlowPeriod"
    macdSignalPeriod := getParam ps "macdSignalPeriod"
    useBollingerBands := (getParam ps "useBollingerBands").map fun v => decide (v ≠ 0)
    bollingerPeriod := getParam ps "bollingerPeriod"
    bollingerStdDev := getParam ps "bollingerStdDev"
    usePriceAction := (getParam ps "usePriceAction").map fun v => decide (v ≠ 0)
    candlePatternStrength := getParam ps "candlePatternStrength"
    generateAdditionalSignals :=
      (getParam ps "generateAdditionalSignals").map fun v => decide (v ≠ 0)
    filterStrength := none }

/-- `createStrategy`: dispatch on the strategy name; the constructor's
validation exception (or the unsupported-name exception) is the error. -/
def createStrategyE (strategyName : String) (ps : ParameterSet) :
    Except String MovingAverageCrossover.MAParams :=
  if strategyName = "MovingAverageCrossover" then
    MovingAverageCrossover.mk (psToInput ps)
  else .error ("サポートされていない戦略: " ++ strategyName)

/-- `calculateFitness`: metric selection from the backtest summary. -/
def calculateFitness (metric : String) (s : Summary) : ℚ :=
  if metric = "profit" then s.profit
  else if metric = "profitPercent" then s.profitPercent
  else if metric = "winRate" then s.winRate
  else if metric = "profitFactor" then s.profitFactor
  else if metric = "combined" then s.profitPercent * (s.winRate / 100) * s.profitFactor
  else s.profit

/-- One row of the optimizer's `results` array. -/
structure EvalEntry where
  params : ParameterSet
  result : Summary
  fitness : ℚ
deriving DecidableEq

/-- Wrap validated parameters as the strategy capability the engine
consumes. -/
def toStrategy (ind : Indicators) (p : MovingAverageCrossover.MAParams) :
    Strategy :=
  ⟨MovingAverageCrossover.generateBacktestSignals ind p⟩

/-- The evaluation of a single `ParameterSet` inside the optimizer's loop:
strategy construction may throw (an `Except.error` that propagates);
`BacktestEngine.run` never throws, and a `success:false` run yields no
entry. -/
def evalOne (sqrtFn : ℚ → ℚ) (ind : Indicators) (cfg : EngineConfig)
    (metric strategyName : String) (candles : List Candle) (ps : ParameterSet) :
    Except String (Option EvalEntry) :=
  match createStrategyE strategyName ps with
  | .error e => .error e
  | .ok mp =>
    let r := BacktestEngine.run sqrtFn cfg (toStrategy ind mp) candles
    match r.success, r.result with
    | true, some s => .ok (some ⟨ps, s, calculateFitness metric s⟩)
    | _, _ => .ok none

/-- The `for (const params of population)` evaluation loop: an exception
from `createStrategy` aborts it, a failed run is skipped. -/
def evalPopulation (sqrtFn : ℚ → ℚ) (ind : Indicators) (cfg : EngineConfig)
    (metric strategyName : String) (candles : List Candle) :
    List ParameterSet → Except String (List EvalEntry)
  | [] => .ok []
  | p :: rest =>
    match evalOne sqrtFn ind cfg metric strategyName candles p with
    | .error e => .error e
    | .ok none => evalPopulation sqrtFn ind cfg metric strategyName candles rest
    | .ok (some entry) =>
      (evalPopulation sqrtFn ind cfg metric strategyName candles rest).map
        (fun l => entry :: l)

/-- The outcome of one `ParameterSet` when no exception interferes: the
entry pushed into `results` when the run succeeds, nothing when the run
reports `success:false` (the excluded-from-ranking case), and nothing when
construction would throw. -/
def successEntry (sqrtFn : ℚ → ℚ) (ind : Indicators) (cfg : EngineConfig)
    (metric strategyName : String) (candles : List Candle) (ps : ParameterSet) :
    Option EvalEntry :=
  match createStrategyE strategyName ps with
  | .error _ => none
  | .ok mp =>
    let r := BacktestEngine.run sqrtFn cfg (toStrategy ind mp) candles
    match r.success, r.result with
    | true, some s => some ⟨ps, s, calculateFitness metric s⟩
    | _, _ => none

/-- The descending-fitness order used by
`results.sort((a, b) => b.fitness - a.fitness)`. -/
def fitnessGE (a b : EvalEntry) : Prop := b.fitness ≤ a.fitness

instance : DecidableRel fitnessGE := fun a b => by
  unfold fitnessGE
  infer_instance

instance : IsTotal EvalEntry fitnessGE :=
  ⟨fun a b => le_total b.fitness a.fitness⟩

instance : IsTrans EvalEntry fitnessGE :=
  ⟨fun _ _ _ h1 h2 => le_trans h2 h1⟩

/-- Sort the evaluation results by descending fitness. -/
def sortResults (rs : List EvalEntry) : List EvalEntry :=
  rs.insertionSort fitnessGE

/-- `results.slice(0, Math.ceil(results.length / 2))`: the selected top
half. -/
def topHalf (rs : List EvalEntry) : List EvalEntry :=
  rs.take ((rs.length + 1) / 2)

/-- `generateNextGeneration`: the two elites are carried over unchanged;
`children` stands for the crossover/mutation fill whose composition depends
on `Math.random` (the elitism claim holds for every such fill, so it is
universally quantified). -/
def generateNextGeneration (parents : List ParameterSet) (children : List ParameterSet) :
    List ParameterSet :=
  parents.take 2 ++ children

/-- The best fitness among a generation's successful evaluations. -/
def bestFitness : List EvalEntry → Option ℚ
  | [] => none
  | e :: rest =>
    match bestFitness rest with
    | none => some e.fitness
    | some b => some (max e.fitness b)

/-- The `bestResult`/`bestParams` update performed as each evaluation
arrives. -/
def updateBest (metric : String) (best : Option (ParameterSet × Summary))
    (rs : List EvalEntry) : Option (ParameterSet × Summary) :=
  rs.foldl
    (fun b entry =>
      match b with
      | none => some (entry.params, entry.result)
      | some cur =>
        if calculateFitness metric cur.2 < entry.fitness then
          some (entry.params, entry.result)
        else b)
    best

/-- The generational loop of `optimize`: evaluate, rank, select, breed.
Reading `topHalf[0].fitness` for the per-generation log throws a
`TypeError` when every evaluation of the generation failed. -/
def optimizeLoop (sqrtFn : ℚ → ℚ) (ind : Indicators) (cfg : EngineConfig)
    (metric strategyName : String) (candles : List Candle)
    (childOracle : Nat → List ParameterSet) :
    Nat → Nat → List ParameterSet → Option (ParameterSet × Summary) →
      Except String (Option (ParameterSet × Summary) × List EvalEntry)
  | 0, _, _, best => .ok (best, [])
  | remaining + 1, gen, pop, best =>
    match evalPopulation sqrtFn ind cfg metric strategyName candles pop with
    | .error e => .error e
    | .ok rs =>
      let best1 := updateBest metric best rs
      let sorted := sortResults rs
      match topHalf sorted with
      | [] => .error "TypeError"
      | _ :: _ =>
        if 0 < remaining then
          optimizeLoop sqrtFn ind cfg metric strategyName candles childOracle
            remaining (gen + 1)
            (generateNextGeneration ((topHalf sorted).map (·.params))
              (childOracle gen))
            best1
        else .ok (best1, sorted)

/-- The object `optimize` resolves to. -/
structure OptimizeOutput where
  success : Bool
  error : Option String
  bestParams : Option ParameterSet
  bestResult : Option Summary
  allResults : List EvalEntry
deriving DecidableEq

/-- `StrategyOptimizer.optimize`.  The initial population (random draws
from `paramRanges`) and the per-generation crossover/mutation fill are RNG
outcomes, passed as explicit inputs; the surrounding `try/catch` turns any
exception from the loop into `{success:false, error}`. -/
def optimize (sqrtFn : ℚ → ℚ) (ind : Indicators) (cfg : EngineConfig)
    (metric strategyName : String) (candles : List Candle) (generations : Nat)
    (childOracle : Nat → List ParameterSet) (initialPopulation : List ParameterSet) :
    OptimizeOutput :=
  if candles = [] then
    ⟨false, some "データがありません", none, none, []⟩
  else
    match optimizeLoop sqrtFn ind cfg metric strategyName candles childOracle
        generations 0 initialPopulation none with
    | .error e => ⟨false, some e, none, none, []⟩
    | .ok (best, entries) =>
      ⟨true, none, best.map (·.1), best.map (·.2), entries⟩

end StrategyOptimizer

namespace ImprovedBacktestEngine

/-- A trade as read by the Monte Carlo resampler (only its
`profitPercentage` field is consulted). -/
structure MCTrade where
  profitPercentage : ℚ
deriving DecidableEq, Repr

/-- `trades.map(t => t.profitPercentage / 100)`. -/
def mcReturns (trades : List MCTrade) : List ℚ :=
  trades.map (·.profitPercentage / 100)

/-- The object `runMonteCarloSimulation` returns (`none` fields on the
no-trades failure path). -/
structure MCResult where
  success : Bool
  error : Option String
  worstCase : Option ℚ
  bestCase : Option ℚ
  medianCase : Option ℚ
  lowerBound : Option ℚ
  upperBound : Option ℚ
  percentage : Option ℚ
  simulationResults : List (List ℚ)
deriving DecidableEq, Repr

/-- The per-trial equity curve (initial balance included). -/
def equityCurveOf (e : ℚ) : List ℚ → List ℚ
  | [] => [e]
  | r :: rest => e :: equityCurveOf (e * (1 + r)) rest

/-- The per-trial terminal equity: compound every shuffled return. -/
def finalEquityOf (e : ℚ) (rs : List ℚ) : ℚ :=
  rs.foldl (fun acc r => acc * (1 + r)) e

/-- `Math.floor` of a rational used as an array index. -/
def floorIdx (q : ℚ) : Nat := (⌊q⌋).toNat

/-- `runMonteCarloSimulation`: for each trial, shuffle the return sequence
(`shuffles i` is the Fisher–Yates outcome of trial `i`, an arbitrary
permutation) and compound it; then sort the terminal equities and report
the order statistics. -/
def runMonteCarloSimulation (initialBalance : ℚ) (sims : Nat) (ci : ℚ)
    (shuffles : Nat → List ℚ → List ℚ) (trades : List MCTrade) : MCResult :=
  if trades = [] then
    { success := false, error := some "シミュレーション用のトレードがありません"
      worstCase := none, bestCase := none, medianCase := none
      lowerBound := none, upperBound := none, percentage := none
      simulationResults := [] }
  else
    let returns := mcReturns trades
    let simulationResults :=
      (List.range sims).map fun i => equityCurveOf initialBalance (shuffles i returns)
    let finalEquities :=
      (List.range sims).map fun i => finalEquityOf initialBalance (shuffles i returns)
    let sorted := finalEquities.insertionSort (· ≤ ·)
    let lowerIndex := floorIdx (((1 - ci) / 2) * (sims : ℚ))
    let upperIndex := floorIdx (((1 + ci) / 2) * (sims : ℚ))
    { success := true, error := none
      worstCase := some (sorted.getD 0 0)
      bestCase := some (sorted.getD (sorted.length - 1) 0)
      medianCase := some (sorted.getD (sorted.length / 2) 0)
      lowerBound := some (sorted.getD lowerIndex 0)
      upperBound := some (sorted.getD upperIndex 0)
      percentage := some (ci * 100)
      simulationResults := simulationResults.take 10 }

end ImprovedBacktestEngine

/-! ## Concrete inputs used to settle the claims -/

/-- A stand-in for `Math.sqrt` (its value is irrelevant to every claim). -/
def sqrt0 : ℚ → ℚ := fun _ => 0

/-- A flat candle: all four prices equal, unit volume. -/
def mkCandle (t : Int) (price : ℚ) : Candle :=
  { time := t, openPrice := price, high := price, low := price, close := price
    volume := 1 }

/-- Two candles at price 100 (no stop or target can trigger). -/
def candles2 : List Candle := [mkCandle 0 100, mkCandle 1 100]

/-- A valid strategy emitting a single BUY at candle 0. -/
def buyStrategy : Strategy :=
  ⟨fun _ =>
    [{ type := .buy, price := 100, time := 0, candleIndex := 0, reason := none
       source := none }]⟩

/-- A valid strategy emitting no signals. -/
def nilStrategy : Strategy := ⟨fun _ => []⟩

/-- A strictly monotonically rising-then-falling close series
(1,…,8 then 7,6,5,4). -/
def candles12 : List Candle :=
  [mkCandle 0 1, mkCandle 1 2, mkCandle 2 3, mkCandle 3 4, mkCandle 4 5,
   mkCandle 5 6, mkCandle 6 7, mkCandle 7 8, mkCandle 8 7, mkCandle 9 6,
   mkCandle 10 5, mkCandle 11 4]

/-- A trivial indicator oracle (never consulted when the auxiliary filters
are disabled). -/
def ind0 : Indicators :=
  ⟨fun _ _ => [], fun _ _ _ _ => ⟨[], [], []⟩, fun _ _ _ => ⟨[], [], []⟩⟩

/-- Strategy parameters for Scenario A: periods (3,5), every auxiliary
filter disabled, weak filter strength (so the empty filter set passes). -/
def p35 : MovingAverageCrossover.MAParams :=
  { shortPeriod := 3, longPeriod := 5, useRsi := false, rsiPeriod := 14
    rsiOverbought := 70, rsiOversold := 30, useVolume := false
    volumeThreshold := 3/2, volumeAvgPeriod := 20, useTrend := false
    trendMaPeriod := 50, useMacd := false, macdFastPeriod := 12
    macdSlowPeriod := 26, macdSignalPeriod := 9, useBollingerBands := false
    bollingerPeriod := 20, bollingerStdDev := 2, usePriceAction := false
    candlePatternStrength := 3/2, generateAdditionalSignals := false
    filterStrength := "weak" }

/-- The same parameters with the default medium filter strength. -/
def p35medium : MovingAverageCrossover.MAParams :=
  { p35 with filterStrength := "medium" }

/-- `"BUY" === "SELL"` is false (used to discharge the engine's
direction-comparison branches during concrete evaluation). -/
@[simp] theorem buy_eq_sell_iff : (TradeType.buy = TradeType.sell) ↔ False := by
  simp

/-- `"SELL" === "BUY"` is false. -/
@[simp] theorem sell_eq_buy_iff : (TradeType.sell = TradeType.buy) ↔ False := by
  simp

/-- ## C1

Claim: for every successful `BacktestEngine.run`, `finalBalance` equals
`initialBalance + Σ trade.profit` within 1e-6 relative tolerance.

The code violates this for every long trade: `openPosition` debits only the
entry fee (never the purchase cost of the position), while `closePosition`
credits the full exit value, so the balance gains the whole position
notional on top of the recorded per-trade profit.  On the two-candle run
below (one BUY opened at price 100, force-closed at 100), the final balance
exceeds `initialBalance + Σ profit` by exactly 50 — the position size —
which is far beyond the 1e-6 relative tolerance. -/
theorem C1_finalBalance_breaks_profit_sum :
    ((BacktestEngine.run sqrt0 defaultConfig buyStrategy candles2).result.map
        (·.finalBalance)).getD 0 -
      (defaultConfig.initialBalance +
        ((((BacktestEngine.run sqrt0 defaultConfig buyStrategy
            candles2).trades.getD []).map (·.profit)).sum)) = 50 ∧
    (BacktestEngine.run sqrt0 defaultConfig buyStrategy candles2).success = true ∧
    (1 / 1000000 : ℚ) *
      (((BacktestEngine.run sqrt0 defaultConfig buyStrategy candles2).result.map
          (·.finalBalance)).getD 0) < 50 := by
  norm_num [BacktestEngine.run, BacktestEngine.runLoop, BacktestEngine.processCandle,
    BacktestEngine.processSignal, BacktestEngine.openPosition,
    BacktestEngine.closePosition, BacktestEngine.adjustPrice,
    BacktestEngine.calculatePositionSize, BacktestEngine.calculateKellyCriterion,
    BacktestEngine.calculateEquity, BacktestEngine.updateMaxDrawdown,
    BacktestEngine.updateMaxDrawdownWithCurrentPrice,
    BacktestEngine.maxDrawdownOfEquity, BacktestEngine.checkStopLossAndTakeProfit,
    BacktestEngine.generateSummary, BacktestEngine.calculateSharpRatio,
    BacktestEngine.calculateAverageHoldingPeriod, BacktestEngine.initState,
    BacktestEngine.winningOf, BacktestEngine.losingOf, BacktestEngine.recentTrades,
    BacktestEngine.maxSafeInteger, candles2, buyStrategy, mkCandle, defaultConfig,
    sqrt0, TradeType.opposite, dummyCandle]

/-- ## C2 (counterexample)

Claim: `run` with zero candles returns `{success:true, summary:
zero-trade defaults}`.  At the explicit input `[]` the code returns
`success:false` with an error message instead. -/
theorem C2_counterexample :
    (BacktestEngine.run sqrt0 defaultConfig buyStrategy []).success = false ∧
    (BacktestEngine.run sqrt0 defaultConfig buyStrategy []).error =
      some "データがありません" := by
  exact ⟨rfl, rfl⟩

/-- ## C2 (amended)

When `BacktestEngine.run` is called with an empty candle array it returns
`{success:false, error:"データがありません"}` (no summary, trades, signals
or equity keys), for every configuration and strategy. -/
theorem C2_empty_candles_return_failure (sqrtFn : ℚ → ℚ) (cfg : EngineConfig)
    (strategy : Strategy) :
    BacktestEngine.run sqrtFn cfg strategy [] =
      { success := false, error := some "データがありません", result := none
        trades := none, signals := none, equity := none } := by
  rfl

/-- ## C5 (counterexample)

Claim: a strictly rising-then-falling series with periods (3,5) yields
exactly one BUY and exactly one SELL crossover signal, at the candle
indices where the 3-period SMA crosses the 5-period SMA.  On the concrete
series 1,…,8,7,6,5,4 (filters disabled, weak strength, so every crossover
passes the filter stage) the generator emits no SELL signal at all. -/
theorem C5_counterexample :
    ((MovingAverageCrossover.generateBacktestSignals ind0 p35 candles12).filter
        (fun s => decide (s.type = TradeType.sell))).length = 0 ∧
    candles12.map (·.close) = [1, 2, 3, 4, 5, 6, 7, 8, 7, 6, 5, 4] := by
  norm_num [MovingAverageCrossover.generateBacktestSignals, sma,
    MovingAverageCrossover.applyFilters, MovingAverageCrossover.requiredPassCount,
    MovingAverageCrossover.passedCount, MovingAverageCrossover.totalFilters,
    MovingAverageCrossover.rsiVote, MovingAverageCrossover.volumeVote,
    MovingAverageCrossover.trendVote, MovingAverageCrossover.macdVote,
    MovingAverageCrossover.bbVote, MovingAverageCrossover.priceActionVote,
    optLE, optLT, optGE, optGT, p35, ind0, candles12, mkCandle, dummyCandle,
    List.range_succ, List.range']

/-- ## C5 (amended)

On the strictly rising-then-falling series 1,…,8,7,6,5,4 with periods
(3,5), filters disabled and weak filter strength, `generateBacktestSignals`
emits exactly one signal: a BUY at `candleIndex` 5.  The SMA arrays
returned by the indicator library are truncated (entry `j` is the window
ending at candle `j + period - 1`), so the candle-indexed comparison reads
windows ending at different candles: the crossing it detects at loop index
5 compares the 3-SMA ending at candle 7 with the 5-SMA ending at candle 9,
and no bearish crossing of the truncated arrays ever occurs.  The result
holds for every indicator oracle, since every auxiliary filter is
disabled. -/
theorem C5_single_buy_no_sell (ind : Indicators) :
    MovingAverageCrossover.generateBacktestSignals ind p35 candles12 =
      [{ type := .buy, price := 6, time := 5, candleIndex := 5, reason := none
         source := some "MA_CROSS" }] := by
  norm_num [MovingAverageCrossover.generateBacktestSignals, sma,
    MovingAverageCrossover.applyFilters, MovingAverageCrossover.requiredPassCount,
    MovingAverageCrossover.passedCount, MovingAverageCrossover.totalFilters,
    MovingAverageCrossover.rsiVote, MovingAverageCrossover.volumeVote,
    MovingAverageCrossover.trendVote, MovingAverageCrossover.macdVote,
    MovingAverageCrossover.bbVote, MovingAverageCrossover.priceActionVote,
    optLE, optLT, optGE, optGT, p35, candles12, mkCandle, dummyCandle,
    List.range_succ, List.range']

/-- The votes-required rule exactly as the claim words it: weak → 1,
medium → ⌈total/2⌉, strong → total (spec-side definition, to be compared
with the source's `requiredPassCount`). -/
def claimRequiredVotes (strength : String) (total : Nat) : Nat :=
  if strength = "weak" then 1
  else if strength = "medium" then (total + 1) / 2
  else total

/-- ## C3 (counterexample)

Claim: a signal is emitted iff `votesPassed ≥ requiredVotes` with
`weak → 1, medium → ceil(total/2), strong → total`.  With zero enabled
filters and medium strength, `votesPassed = 0 ≥ 0 = ceil(0/2)` so the
claim admits the signal, but the code requires `max(1, ceil(0/2)) = 1`
vote and rejects it. -/
theorem C3_counterexample :
    MovingAverageCrossover.applyFilters p35medium .buy 0 [] [] [] [] []
        ⟨[], [], []⟩ ⟨[], [], []⟩ [] = false ∧
    claimRequiredVotes "medium" (MovingAverageCrossover.totalFilters p35medium) ≤
      MovingAverageCrossover.passedCount p35medium .buy 0 [] [] [] [] []
        ⟨[], [], []⟩ ⟨[], [], []⟩ [] := by
  constructor
  · norm_num [MovingAverageCrossover.applyFilters,
      MovingAverageCrossover.requiredPassCount, MovingAverageCrossover.passedCount,
      MovingAverageCrossover.totalFilters, MovingAverageCrossover.rsiVote,
      MovingAverageCrossover.volumeVote, MovingAverageCrossover.trendVote,
      MovingAverageCrossover.macdVote, MovingAverageCrossover.bbVote,
      MovingAverageCrossover.priceActionVote, p35medium, p35]
    decide
  · norm_num [claimRequiredVotes, MovingAverageCrossover.passedCount,
      MovingAverageCrossover.totalFilters, MovingAverageCrossover.rsiVote,
      MovingAverageCrossover.volumeVote, MovingAverageCrossover.trendVote,
      MovingAverageCrossover.macdVote, MovingAverageCrossover.bbVote,
      MovingAverageCrossover.priceActionVote, p35medium, p35]
    decide

/-- ## C3 (amended)

A crossover signal passes `applyFilters` iff the number of passed filter
votes reaches the required count, where the required count is: weak → 1
when at least one filter is enabled, otherwise 0; medium →
`max(1, ceil(total/2))`; strong → total. -/
theorem C3_filter_vote_rule (p : MovingAverageCrossover.MAParams)
    (signalType : TradeType) (index : Nat)
    (closes rsiValues volumes volumeAvg trendMa : List ℚ)
    (macdData : MacdBundle) (bbands : BBands) (candles : List Candle) :
    (MovingAverageCrossover.applyFilters p signalType index closes rsiValues
        volumes volumeAvg trendMa macdData bbands candles = true ↔
      MovingAverageCrossover.requiredPassCount p ≤
        MovingAverageCrossover.passedCount p signalType index closes rsiValues
          volumes volumeAvg trendMa macdData bbands candles) ∧
    MovingAverageCrossover.requiredPassCount { p with filterStrength := "weak" } =
      (if 0 < MovingAverageCrossover.totalFilters p then 1 else 0) ∧
    MovingAverageCrossover.requiredPassCount { p with filterStrength := "medium" } =
      max 1 ((MovingAverageCrossover.totalFilters p + 1) / 2) ∧
    MovingAverageCrossover.requiredPassCount { p with filterStrength := "strong" } =
      MovingAverageCrossover.totalFilters p := by
  refine ⟨by simp [MovingAverageCrossover.applyFilters], ?_, ?_, ?_⟩ <;>
    simp [MovingAverageCrossover.requiredPassCount,
      MovingAverageCrossover.totalFilters]

/-- The rational-convention Kelly value is clamped: under `x / 0 = 0` it is
always in `[0.1, 1.0]`, exactly `0.5` below 10 trades and the clamped
half-Kelly otherwise.  This bounds `calculateKellyCriterion`, not the
floating-point program: see `kellyJs_eq_finite` for where the two agree and
`C6_kelly_nan_on_zero_profit_history` for the corner where they do not. -/
theorem kellyQ_clamped (trades : List Trade) :
    ((1/10 : ℚ) ≤ BacktestEngine.calculateKellyCriterion trades ∧
      BacktestEngine.calculateKellyCriterion trades ≤ 1) ∧
    (trades.length < 10 → BacktestEngine.calculateKellyCriterion trades = 1/2) ∧
    (10 ≤ trades.length →
      BacktestEngine.calculateKellyCriterion trades =
        min (max (BacktestEngine.kellyRaw trades / 2) (1/10)) 1) := by
  unfold BacktestEngine.calculateKellyCriterion
  by_cases h : trades.length < 10
  · simp only [if_pos h]
    exact ⟨⟨by norm_num, by norm_num⟩, fun _ => trivial,
      fun h10 => absurd h10 (by omega)⟩
  · simp only [if_neg h]
    exact ⟨⟨le_min (le_max_right _ _) (by norm_num), min_le_right _ _⟩,
      fun hlt => absurd hlt h, fun _ => trivial⟩

/-- Every member of `winningOf l` has strictly positive profit. -/
theorem winningOf_profit_pos (l : List Trade) :
    ∀ t ∈ BacktestEngine.winningOf l, 0 < t.profit := by
  intro t ht
  have h2 := (List.mem_filter.mp ht).2
  simpa using h2

/-- With at least one winner in the recent window, the average win is
strictly positive (a sum of positive profits over a positive count). -/
theorem kellyAvgWin_pos_of_winners (trades : List Trade)
    (hl : 0 < (BacktestEngine.winningOf
        (BacktestEngine.recentTrades trades)).length) :
    0 < BacktestEngine.kellyAvgWin trades := by
  unfold BacktestEngine.kellyAvgWin
  simp only [if_pos hl]
  apply div_pos
  · apply List.sum_pos
    · intro x hx
      obtain ⟨t, ht, rfl⟩ := List.mem_map.mp hx
      exact winningOf_profit_pos _ t ht
    · simp only [ne_eq, List.map_eq_nil_iff]
      intro hnil
      rw [hnil] at hl
      simp at hl
  · exact_mod_cast hl

/-- A nonzero average win is positive. -/
theorem kellyAvgWin_pos_of_ne_zero (trades : List Trade)
    (h : BacktestEngine.kellyAvgWin trades ≠ 0) :
    0 < BacktestEngine.kellyAvgWin trades := by
  by_cases hl : 0 < (BacktestEngine.winningOf
      (BacktestEngine.recentTrades trades)).length
  · exact kellyAvgWin_pos_of_winners trades hl
  · exfalso
    apply h
    unfold BacktestEngine.kellyAvgWin
    simp [if_neg hl]

/-- A zero average win means there are no winners, so the win rate is 0. -/
theorem kellyWinRate_eq_zero (trades : List Trade)
    (h : BacktestEngine.kellyAvgWin trades = 0) :
    BacktestEngine.kellyWinRate trades = 0 := by
  by_cases hl : 0 < (BacktestEngine.winningOf
      (BacktestEngine.recentTrades trades)).length
  · exact absurd h (kellyAvgWin_pos_of_winners trades hl).ne'
  · unfold BacktestEngine.kellyWinRate
    have hlen : (BacktestEngine.winningOf
        (BacktestEngine.recentTrades trades)).length = 0 := by omega
    rw [hlen]
    simp

/-- Off the `avgWin = avgLoss = 0` corner, the floating-point Kelly value is
finite and equals the rational-convention one: when `avgLoss = 0` with a
positive `avgWin` the JS chain `payoff = +Infinity`, `(1-W)/Infinity = 0`
matches the `x / 0 = 0` collapse; when `payoffRatio = 0` (no winners, real
losses) the JS chain `W - Infinity = -Infinity` is lifted to `0.1` by the
clamp just as the rational `W - 0` is; and all remaining cases are the same
finite computation. -/
theorem kellyJs_eq_finite (trades : List Trade)
    (h : ¬(BacktestEngine.kellyAvgWin trades = 0 ∧
      BacktestEngine.kellyAvgLoss trades = 0)) :
    BacktestEngine.calculateKellyCriterionJs trades =
      .finite (BacktestEngine.calculateKellyCriterion trades) := by
  unfold BacktestEngine.calculateKellyCriterionJs
    BacktestEngine.calculateKellyCriterion
  by_cases hlen : trades.length < 10
  · simp [hlen]
  · simp only [if_neg hlen]
    by_cases hL : BacktestEngine.kellyAvgLoss trades = 0
    · have hW : BacktestEngine.kellyAvgWin trades ≠ 0 := fun hw => h ⟨hw, hL⟩
      have hWpos := kellyAvgWin_pos_of_ne_zero trades hW
      norm_num [BacktestEngine.jsDiv, BacktestEngine.jsSub,
        BacktestEngine.jsMax, BacktestEngine.jsMin, hL, hW, hWpos,
        BacktestEngine.kellyRaw, div_zero, sub_zero]
    · by_cases hR : BacktestEngine.kellyAvgWin trades /
          BacktestEngine.kellyAvgLoss trades = 0
      · have hW0 : BacktestEngine.kellyAvgWin trades = 0 := by
          rcases div_eq_zero_iff.mp hR with h1 | h1
          · exact h1
          · exact absurd h1 hL
        have hWr := kellyWinRate_eq_zero trades hW0
        norm_num [BacktestEngine.jsDiv, BacktestEngine.jsSub,
          BacktestEngine.jsMax, BacktestEngine.jsMin, hL, hW0, hWr,
          BacktestEngine.kellyRaw, div_zero, zero_div]
      · norm_num [BacktestEngine.jsDiv, BacktestEngine.jsSub,
          BacktestEngine.jsMax, BacktestEngine.jsMin, hL, hR,
          BacktestEngine.kellyRaw]

/-- A closed trade with profit exactly 0. -/
def tradeZero : Trade :=
  { type := .buy, entryPrice := 100, exitPrice := 100, units := 1, entryTime := 0
    exitTime := 1, entryCandleIndex := 0, exitCandleIndex := 1, profit := 0
    fee := 0, exitReason := "SIGNAL" }

/-- Ten closed trades, each with profit exactly 0: the window then has no
winner and every loser has zero magnitude. -/
def zeroTrades10 : List Trade :=
  [tradeZero, tradeZero, tradeZero, tradeZero, tradeZero,
   tradeZero, tradeZero, tradeZero, tradeZero, tradeZero]

/-- ## C6

The claim that `calculateKellyCriterion` always returns a value in
`[0.1, 1.0]` fails in the source on a history of ten closed trades each
with profit exactly 0: the recent window has no winner (`avgWin = 0`) and
only zero-magnitude losers (`avgLoss = Math.abs(0)/10 = 0` — the `1`
default guards only the no-losing-trades case), so
`payoffRatio = 0/0 = NaN`, and `NaN` propagates through the subtraction,
the halving and `Math.min(Math.max(kelly, 0.1), 1.0)`: the function
returns `NaN`, which is not a finite value, let alone one in the claimed
range. -/
theorem C6_kelly_nan_on_zero_profit_history :
    zeroTrades10.length = 10 ∧
    zeroTrades10.map (fun t => t.profit) = [0, 0, 0, 0, 0, 0, 0, 0, 0, 0] ∧
    BacktestEngine.calculateKellyCriterionJs zeroTrades10 =
      BacktestEngine.JsNum.nan ∧
    ∀ q : ℚ, BacktestEngine.calculateKellyCriterionJs zeroTrades10 ≠
      BacktestEngine.JsNum.finite q := by
  have hnan : BacktestEngine.calculateKellyCriterionJs zeroTrades10 =
      BacktestEngine.JsNum.nan := by
    norm_num [BacktestEngine.calculateKellyCriterionJs,
      BacktestEngine.kellyAvgWin, BacktestEngine.kellyAvgLoss,
      BacktestEngine.kellyWinRate, BacktestEngine.winningOf,
      BacktestEngine.losingOf, BacktestEngine.recentTrades, zeroTrades10,
      tradeZero, BacktestEngine.jsDiv, BacktestEngine.jsSub,
      BacktestEngine.jsMax, BacktestEngine.jsMin]
  refine ⟨rfl, rfl, hnan, ?_⟩
  intro q
  rw [hnan]
  intro hq
  exact BacktestEngine.JsNum.noConfusion hq

/-- The winning/losing filters partition every trade list (each trade has
`profit > 0` or `profit ≤ 0`, never both). -/
theorem winning_losing_partition (l : List Trade) :
    (BacktestEngine.winningOf l).length + (BacktestEngine.losingOf l).length =
      l.length := by
  induction l with
  | nil => rfl
  | cons t rest ih =>
    rcases le_or_lt t.profit 0 with h | h
    · have h2 : ¬(0 < t.profit) := not_lt.mpr h
      simp [BacktestEngine.winningOf, BacktestEngine.losingOf, List.filter_cons,
        h, h2] at ih ⊢
      omega
    · have h2 : ¬(t.profit ≤ 0) := not_le.mpr h
      simp [BacktestEngine.winningOf, BacktestEngine.losingOf, List.filter_cons,
        h, h2] at ih ⊢
      omega

/-- ## C9

A trade with profit exactly 0 is a losing trade throughout: the summary's
`winningTrades` counts `profit > 0`, `losingTrades` counts `profit ≤ 0`,
they always partition `totalTrades`, and the Kelly win rate uses the same
`profit > 0` classification over the recent window (which the same
partition covers). -/
theorem C9_zero_profit_is_loss (sqrtFn : ℚ → ℚ) (cfg : EngineConfig)
    (st : EngineState) :
    (BacktestEngine.generateSummary sqrtFn cfg st).winningTrades =
      (BacktestEngine.winningOf st.trades).length ∧
    (BacktestEngine.generateSummary sqrtFn cfg st).losingTrades =
      (BacktestEngine.losingOf st.trades).length ∧
    (BacktestEngine.generateSummary sqrtFn cfg st).winningTrades +
        (BacktestEngine.generateSummary sqrtFn cfg st).losingTrades =
      (BacktestEngine.generateSummary sqrtFn cfg st).totalTrades ∧
    (∀ t ∈ st.trades, t.profit = 0 →
      t ∈ BacktestEngine.losingOf st.trades ∧
        t ∉ BacktestEngine.winningOf st.trades) ∧
    BacktestEngine.kellyWinRate st.trades =
      ((BacktestEngine.winningOf (BacktestEngine.recentTrades st.trades)).length : ℚ) /
        ((BacktestEngine.recentTrades st.trades).length : ℚ) ∧
    (BacktestEngine.winningOf (BacktestEngine.recentTrades st.trades)).length +
        (BacktestEngine.losingOf (BacktestEngine.recentTrades st.trades)).length =
      (BacktestEngine.recentTrades st.trades).length := by
  refine ⟨rfl, rfl, winning_losing_partition _, ?_, rfl,
    winning_losing_partition _⟩
  intro t ht h0
  constructor
  · exact List.mem_filter.mpr ⟨ht, by simp [h0]⟩
  · intro hmem
    have hpos := (List.mem_filter.mp hmem).2
    simp [h0] at hpos

/-- An engine state holding exactly the zero-profit trade. -/
def stZero : EngineState :=
  { currentBalance := 10000, trades := [tradeZero], equity := []
    maxDrawdown := 0, position := none }

/-- C9 witness: the zero-profit trade is classified as a loss and the
counts partition. -/
theorem C9_zero_profit_is_loss_witness :
    tradeZero ∈ BacktestEngine.losingOf stZero.trades ∧
    tradeZero ∉ BacktestEngine.winningOf stZero.trades ∧
    (BacktestEngine.generateSummary sqrt0 defaultConfig stZero).winningTrades +
        (BacktestEngine.generateSummary sqrt0 defaultConfig stZero).losingTrades =
      (BacktestEngine.generateSummary sqrt0 defaultConfig stZero).totalTrades := by
  have h := C9_zero_profit_is_loss sqrt0 defaultConfig stZero
  have hm := h.2.2.2.1 tradeZero (by simp [stZero]) rfl
  exact ⟨hm.1, hm.2, h.2.2.1⟩

/-- ## C10

A run over a non-empty candle list whose strategy generates zero signals
returns `success:true` with the zero-trade summary, empty `trades` and
`signals` arrays and no `equity` key — unlike the normal completion path,
which always carries one. -/
theorem C10_zero_signal_run_omits_equity (sqrtFn : ℚ → ℚ) (cfg : EngineConfig)
    (strategy : Strategy) (candles : List Candle) (h1 : candles ≠ [])
    (h2 : strategy.generate candles = []) :
    BacktestEngine.run sqrtFn cfg strategy candles =
      { success := true, error := none
        result := some (BacktestEngine.generateSummary sqrtFn cfg
          (BacktestEngine.initState cfg))
        trades := some [], signals := some [], equity := none } ∧
    (BacktestEngine.generateSummary sqrtFn cfg
        (BacktestEngine.initState cfg)).totalTrades = 0 ∧
    (BacktestEngine.generateSummary sqrtFn cfg
        (BacktestEngine.initState cfg)).finalBalance = cfg.initialBalance ∧
    (∀ strategy2 : Strategy, strategy2.generate candles ≠ [] →
      (BacktestEngine.run sqrtFn cfg strategy2 candles).equity.isSome = true) := by
  obtain ⟨c0, rest, rfl⟩ : ∃ c0 rest, candles = c0 :: rest := by
    cases candles with
    | nil => exact absurd rfl h1
    | cons a b => exact ⟨a, b, rfl⟩
  refine ⟨?_, rfl, rfl, ?_⟩
  · simp [BacktestEngine.run, h2]
  · intro strategy2 hne
    simp [BacktestEngine.run, hne]

/-- C10 witness: a concrete signal-less run on two candles. -/
theorem C10_zero_signal_run_omits_equity_witness :
    BacktestEngine.run sqrt0 defaultConfig nilStrategy candles2 =
      { success := true, error := none
        result := some (BacktestEngine.generateSummary sqrt0 defaultConfig
          (BacktestEngine.initState defaultConfig))
        trades := some [], signals := some [], equity := none } ∧
    (BacktestEngine.generateSummary sqrt0 defaultConfig
        (BacktestEngine.initState defaultConfig)).totalTrades = 0 := by
  have h := C10_zero_signal_run_omits_equity sqrt0 defaultConfig nilStrategy
    candles2 (by simp [candles2]) rfl
  exact ⟨h.1, h.2.1⟩

/-- Compounding a constant return `n` times multiplies the starting equity
by `(1+r)^n`, whatever the starting equity. -/
theorem foldl_compound_replicate (r : ℚ) :
    ∀ (n : Nat) (e : ℚ),
      (List.replicate n r).foldl (fun acc x => acc * (1 + x)) e = e * (1 + r) ^ n
  | 0, e => by simp
  | n + 1, e => by
    rw [List.replicate_succ, List.foldl_cons, foldl_compound_replicate r n]
    ring

/-- A list that is a permutation of a constant list is that constant
list. -/
theorem eq_replicate_of_perm {α : Type} {l : List α} {n : Nat} {a : α}
    (h : l.Perm (List.replicate n a)) : l = List.replicate n a := by
  rw [List.eq_replicate_iff]
  exact ⟨by rw [h.length_eq, List.length_replicate],
    fun b hb => List.eq_of_mem_replicate (h.subset hb)⟩

/-- `getD` inside the bounds of a constant list yields the constant. -/
theorem getD_replicate {α : Type} (a d : α) :
    ∀ (n k : Nat), k < n → (List.replicate n a).getD k d = a
  | n + 1, 0, _ => by simp
  | n + 1, k + 1, h => by
    rw [List.replicate_succ, List.getD_cons_succ]
    exact getD_replicate a d n k (by omega)

/-- ## C8

For a trade history of `N` trades whose per-trade return fractions all
equal the same positive `p` percent, every Monte Carlo trial compounds to
the same terminal equity `initial * (1 + p/100)^N` regardless of the
shuffle order, so the reported worst case, best case, median and both
confidence-interval bounds coincide. -/
theorem C8_monte_carlo_zero_variance (init p : ℚ) (N sims : Nat) (ci : ℚ)
    (shuffles : Nat → List ℚ → List ℚ) (trades : List ImprovedBacktestEngine.MCTrade)
    (hne : trades ≠ [])
    (hlen : trades.length = N)
    (_hpos : 0 < p)
    (hall : ∀ t ∈ trades, t.profitPercentage = p)
    (hsims : 0 < sims)
    (hperm : ∀ i < sims,
      (shuffles i (ImprovedBacktestEngine.mcReturns trades)).Perm
        (ImprovedBacktestEngine.mcReturns trades))
    (hlow : ((1 - ci) / 2) * (sims : ℚ) < (sims : ℚ))
    (hup : ((1 + ci) / 2) * (sims : ℚ) < (sims : ℚ)) :
    (ImprovedBacktestEngine.runMonteCarloSimulation init sims ci shuffles
        trades).worstCase = some (init * (1 + p / 100) ^ N) ∧
    (ImprovedBacktestEngine.runMonteCarloSimulation init sims ci shuffles
        trades).bestCase = some (init * (1 + p / 100) ^ N) ∧
    (ImprovedBacktestEngine.runMonteCarloSimulation init sims ci shuffles
        trades).medianCase = some (init * (1 + p / 100) ^ N) ∧
    (ImprovedBacktestEngine.runMonteCarloSimulation init sims ci shuffles
        trades).lowerBound = some (init * (1 + p / 100) ^ N) ∧
    (ImprovedBacktestEngine.runMonteCarloSimulation init sims ci shuffles
        trades).upperBound = some (init * (1 + p / 100) ^ N) := by
  have hret : ImprovedBacktestEngine.mcReturns trades = List.replicate N (p / 100) := by
    rw [List.eq_replicate_iff]
    constructor
    · rw [ImprovedBacktestEngine.mcReturns, List.length_map, hlen]
    · intro b hb
      obtain ⟨t, ht, rfl⟩ := List.mem_map.mp hb
      rw [hall t ht]
  have hshuf : ∀ i < sims,
      shuffles i (ImprovedBacktestEngine.mcReturns trades) =
        List.replicate N (p / 100) := by
    intro i hi
    exact eq_replicate_of_perm (hret ▸ hperm i hi)
  have hfe : ((List.range sims).map fun i =>
      ImprovedBacktestEngine.finalEquityOf init
        (shuffles i (ImprovedBacktestEngine.mcReturns trades))) =
      List.replicate sims (init * (1 + p / 100) ^ N) := by
    rw [List.eq_replicate_iff]
    constructor
    · simp
    · intro b hb
      obtain ⟨i, hi, rfl⟩ := List.mem_map.mp hb
      rw [hshuf i (List.mem_range.mp hi)]
      exact foldl_compound_replicate (p / 100) N init
  have hsorted : List.insertionSort (fun a b => a ≤ b)
      ((List.range sims).map fun i =>
        ImprovedBacktestEngine.finalEquityOf init
          (shuffles i (ImprovedBacktestEngine.mcReturns trades))) =
      List.replicate sims (init * (1 + p / 100) ^ N) := by
    rw [hfe]
    exact eq_replicate_of_perm (List.perm_insertionSort _ _)
  have hidx1 : ImprovedBacktestEngine.floorIdx (((1 - ci) / 2) * (sims : ℚ)) < sims := by
    rw [ImprovedBacktestEngine.floorIdx]
    have h1 : ⌊((1 - ci) / 2) * (sims : ℚ)⌋ < (sims : ℤ) := by
      apply Int.floor_lt.mpr
      push_cast
      exact hlow
    omega
  have hidx2 : ImprovedBacktestEngine.floorIdx (((1 + ci) / 2) * (sims : ℚ)) < sims := by
    rw [ImprovedBacktestEngine.floorIdx]
    have h1 : ⌊((1 + ci) / 2) * (sims : ℚ)⌋ < (sims : ℤ) := by
      apply Int.floor_lt.mpr
      push_cast
      exact hup
    omega
  simp only [ImprovedBacktestEngine.runMonteCarloSimulation, hne, if_false]
  simp only [hsorted, List.length_replicate]
  exact ⟨by rw [getD_replicate _ _ _ _ hsims],
    by rw [getD_replicate _ _ _ _ (by omega)],
    by rw [getD_replicate _ _ _ _ (by omega)],
    by rw [getD_replicate _ _ _ _ hidx1],
    by rw [getD_replicate _ _ _ _ hidx2]⟩

/-- Two identical 10%-return trades for the Monte Carlo witness. -/
def mcTrades2 : List ImprovedBacktestEngine.MCTrade := [⟨10⟩, ⟨10⟩]

/-- C8 witness: one identity-shuffle trial over two identical trades. -/
theorem C8_monte_carlo_zero_variance_witness :
    (ImprovedBacktestEngine.runMonteCarloSimulation 100 1 0 (fun _ rs => rs)
        mcTrades2).worstCase = some ((100 : ℚ) * (1 + 10 / 100) ^ 2) ∧
    (ImprovedBacktestEngine.runMonteCarloSimulation 100 1 0 (fun _ rs => rs)
        mcTrades2).upperBound = some ((100 : ℚ) * (1 + 10 / 100) ^ 2) := by
  have h := C8_monte_carlo_zero_variance 100 10 2 1 0 (fun _ rs => rs) mcTrades2
    (by simp [mcTrades2]) (by simp [mcTrades2]) (by norm_num)
    (by
      intro t ht
      simp only [mcTrades2, List.mem_cons, List.mem_singleton,
        List.not_mem_nil, or_false] at ht
      rcases ht with h1 | h1 <;> simp [h1])
    (by norm_num) (fun i _ => List.Perm.refl _) (by norm_num) (by norm_num)
  exact ⟨h.1, h.2.2.2.2⟩

/-- If `evalOne` returned an entry, the entry carries the evaluated
parameter set. -/
theorem evalOne_params_eq (sqrtFn : ℚ → ℚ) (ind : Indicators)
    (cfg : EngineConfig) (metric strategyName : String) (candles : List Candle)
    (p : StrategyOptimizer.ParameterSet) (entry : StrategyOptimizer.EvalEntry)
    (h : StrategyOptimizer.evalOne sqrtFn ind cfg metric strategyName candles p =
      .ok (some entry)) : entry.params = p := by
  unfold StrategyOptimizer.evalOne at h
  cases hc : StrategyOptimizer.createStrategyE strategyName p with
  | error e => rw [hc] at h; simp at h
  | ok mp =>
    rw [hc] at h
    cases hs : (BacktestEngine.run sqrtFn cfg (StrategyOptimizer.toStrategy ind mp)
        candles).success with
    | false => simp [hs] at h
    | true =>
      cases hr : (BacktestEngine.run sqrtFn cfg
          (StrategyOptimizer.toStrategy ind mp) candles).result with
      | none => simp [hs, hr] at h
      | some s =>
        simp only [hs, hr] at h
        cases h
        rfl

/-- Every entry of a successfully evaluated population re-evaluates (the
evaluation is a pure function of the parameters) to itself. -/
theorem evalPopulation_mem_eval (sqrtFn : ℚ → ℚ) (ind : Indicators)
    (cfg : EngineConfig) (metric strategyName : String) (candles : List Candle) :
    ∀ (pop : List StrategyOptimizer.ParameterSet)
      (rs : List StrategyOptimizer.EvalEntry),
      StrategyOptimizer.evalPopulation sqrtFn ind cfg metric strategyName candles
        pop = .ok rs →
      ∀ e ∈ rs,
        StrategyOptimizer.evalOne sqrtFn ind cfg metric strategyName candles
          e.params = .ok (some e)
  | [], rs, h => by
    unfold StrategyOptimizer.evalPopulation at h
    cases h
    intro e he
    simp at he
  | p :: rest, rs, h => by
    unfold StrategyOptimizer.evalPopulation at h
    cases hE : StrategyOptimizer.evalOne sqrtFn ind cfg metric strategyName
        candles p with
    | error e2 => rw [hE] at h; simp at h
    | ok o =>
      rw [hE] at h
      cases o with
      | none =>
        exact evalPopulation_mem_eval sqrtFn ind cfg metric strategyName candles
          rest rs h
      | some entry =>
        cases hrest : StrategyOptimizer.evalPopulation sqrtFn ind cfg metric
            strategyName candles rest with
        | error e2 => rw [hrest] at h; simp [Except.map] at h
        | ok l =>
          rw [hrest] at h
          simp only [Except.map] at h
          cases h
          intro e he
          rcases List.mem_cons.mp he with rfl | hel
          · rw [evalOne_params_eq sqrtFn ind cfg metric strategyName candles p e hE]
            exact hE
          · exact evalPopulation_mem_eval sqrtFn ind cfg metric strategyName
              candles rest l hrest e hel

/-- A parameter set of the population whose (pure) evaluation yields an
entry contributes that entry to any successful population evaluation. -/
theorem evalPopulation_mem_of_evalOne (sqrtFn : ℚ → ℚ) (ind : Indicators)
    (cfg : EngineConfig) (metric strategyName : String) (candles : List Candle) :
    ∀ (pop : List StrategyOptimizer.ParameterSet)
      (rs : List StrategyOptimizer.EvalEntry)
      (q : StrategyOptimizer.ParameterSet) (entry : StrategyOptimizer.EvalEntry),
      q ∈ pop →
      StrategyOptimizer.evalOne sqrtFn ind cfg metric strategyName candles q =
        .ok (some entry) →
      StrategyOptimizer.evalPopulation sqrtFn ind cfg metric strategyName candles
        pop = .ok rs →
      entry ∈ rs
  | [], _, q, _, hq, _, _ => by simp at hq
  | p :: rest, rs, q, entry, hq, hEq, h => by
    unfold StrategyOptimizer.evalPopulation at h
    rcases List.mem_cons.mp hq with rfl | hq2
    · rw [hEq] at h
      cases hrest : StrategyOptimizer.evalPopulation sqrtFn ind cfg metric
          strategyName candles rest with
      | error e2 => rw [hrest] at h; simp [Except.map] at h
      | ok l =>
        rw [hrest] at h
        simp only [Except.map] at h
        cases h
        exact List.mem_cons_self _ _
    · cases hE : StrategyOptimizer.evalOne sqrtFn ind cfg metric strategyName
          candles p with
      | error e2 => rw [hE] at h; simp at h
      | ok o =>
        rw [hE] at h
        cases o with
        | none =>
          exact evalPopulation_mem_of_evalOne sqrtFn ind cfg metric strategyName
            candles rest rs q entry hq2 hEq h
        | some entry2 =>
          cases hrest : StrategyOptimizer.evalPopulation sqrtFn ind cfg metric
              strategyName candles rest with
          | error e2 => rw [hrest] at h; simp [Except.map] at h
          | ok l =>
            rw [hrest] at h
            simp only [Except.map] at h
            cases h
            exact List.mem_cons_of_mem _
              (evalPopulation_mem_of_evalOne sqrtFn ind cfg metric strategyName
                candles rest l q entry hq2 hEq hrest)

/-- The best fitness of a generation is attained by one of its entries. -/
theorem bestFitness_spec :
    ∀ (rs : List StrategyOptimizer.EvalEntry) (b : ℚ),
      StrategyOptimizer.bestFitness rs = some b → ∃ e ∈ rs, e.fitness = b
  | [], b, h => by simp [StrategyOptimizer.bestFitness] at h
  | e :: rest, b, h => by
    unfold StrategyOptimizer.bestFitness at h
    cases hr : StrategyOptimizer.bestFitness rest with
    | none =>
      rw [hr] at h
      cases h
      exact ⟨e, List.mem_cons_self _ _, rfl⟩
    | some br =>
      rw [hr] at h
      cases h
      rcases le_total e.fitness br with hle | hle
      · obtain ⟨e2, he2, hf2⟩ := bestFitness_spec rest br hr
        exact ⟨e2, List.mem_cons_of_mem _ he2, by rw [hf2, max_eq_right hle]⟩
      · exact ⟨e, List.mem_cons_self _ _, (max_eq_left hle).symm⟩

/-- Every entry's fitness is bounded by the generation's best fitness. -/
theorem le_bestFitness :
    ∀ (rs : List StrategyOptimizer.EvalEntry)
      (e : StrategyOptimizer.EvalEntry), e ∈ rs →
      ∃ b, StrategyOptimizer.bestFitness rs = some b ∧ e.fitness ≤ b
  | [], e, he => by simp at he
  | e0 :: rest, e, he => by
    unfold StrategyOptimizer.bestFitness
    cases hr : StrategyOptimizer.bestFitness rest with
    | none =>
      rcases List.mem_cons.mp he with rfl | he2
      · exact ⟨e.fitness, rfl, le_refl _⟩
      · obtain ⟨b, hb, _⟩ := le_bestFitness rest e he2
        rw [hr] at hb
        cases hb
    | some br =>
      refine ⟨max e0.fitness br, rfl, ?_⟩
      rcases List.mem_cons.mp he with rfl | he2
      · exact le_max_left _ _
      · obtain ⟨b, hb, hle⟩ := le_bestFitness rest e he2
        rw [hr] at hb
        cases hb
        exact le_trans hle (le_max_right _ _)

/-- After the descending-fitness sort, the head of a non-empty result list
is a member attaining the maximum fitness. -/
theorem sortResults_head_max (rs : List StrategyOptimizer.EvalEntry)
    (hne : rs ≠ []) :
    ∃ e0 t, StrategyOptimizer.sortResults rs = e0 :: t ∧ e0 ∈ rs ∧
      ∀ e ∈ rs, e.fitness ≤ e0.fitness := by
  cases hs : StrategyOptimizer.sortResults rs with
  | nil =>
    have hperm := List.perm_insertionSort StrategyOptimizer.fitnessGE rs
    rw [show List.insertionSort StrategyOptimizer.fitnessGE rs =
      StrategyOptimizer.sortResults rs from rfl, hs] at hperm
    exact absurd hperm.symm.eq_nil hne
  | cons e0 t =>
    refine ⟨e0, t, rfl, ?_, ?_⟩
    · have h0 : e0 ∈ StrategyOptimizer.sortResults rs := by
        rw [hs]
        exact List.mem_cons_self _ _
      rwa [StrategyOptimizer.sortResults, List.mem_insertionSort] at h0
    · intro e he
      have hsorted := List.sorted_insertionSort StrategyOptimizer.fitnessGE rs
      rw [show List.insertionSort StrategyOptimizer.fitnessGE rs =
        StrategyOptimizer.sortResults rs from rfl, hs] at hsorted
      have he2 : e ∈ e0 :: t := by
        rw [← hs, StrategyOptimizer.sortResults, List.mem_insertionSort]
        exact he
      rcases List.mem_cons.mp he2 with rfl | het
      · exact le_refl _
      · exact List.rel_of_sorted_cons hsorted e het

/-- ## C7

Elitism monotonicity: if generation `g`'s evaluation succeeded with best
fitness `b`, then any next generation built by `generateNextGeneration`
from the ranked top half (with an arbitrary crossover/mutation fill) that
itself evaluates without an exception has best fitness at least `b` —
because the top-ranked parameter set is copied unchanged and its (pure,
deterministic) evaluation reproduces the same fitness. -/
theorem C7_elitism_monotone (sqrtFn : ℚ → ℚ) (ind : Indicators)
    (cfg : EngineConfig) (metric strategyName : String) (candles : List Candle)
    (pop children : List StrategyOptimizer.ParameterSet)
    (rs rs2 : List StrategyOptimizer.EvalEntry) (b : ℚ)
    (h1 : StrategyOptimizer.evalPopulation sqrtFn ind cfg metric strategyName
      candles pop = .ok rs)
    (h2 : StrategyOptimizer.bestFitness rs = some b)
    (h3 : StrategyOptimizer.evalPopulation sqrtFn ind cfg metric strategyName
      candles
      (StrategyOptimizer.generateNextGeneration
        ((StrategyOptimizer.topHalf (StrategyOptimizer.sortResults rs)).map
          (·.params)) children) = .ok rs2) :
    ∃ b2, StrategyOptimizer.bestFitness rs2 = some b2 ∧ b ≤ b2 := by
  obtain ⟨emax, hmem, hfit⟩ := bestFitness_spec rs b h2
  have hne : rs ≠ [] := by
    intro hnil
    rw [hnil] at hmem
    simp at hmem
  obtain ⟨e0, t, hs, he0, hmax⟩ := sortResults_head_max rs hne
  have hble : b ≤ e0.fitness := hfit ▸ hmax emax hmem
  obtain ⟨t2, ht2⟩ : ∃ t2,
      StrategyOptimizer.topHalf (StrategyOptimizer.sortResults rs) = e0 :: t2 := by
    rw [hs]
    unfold StrategyOptimizer.topHalf
    obtain ⟨m, hm⟩ : ∃ m, ((e0 :: t).length + 1) / 2 = m + 1 := by
      have hpos2 : 0 < ((e0 :: t).length + 1) / 2 := by
        simp only [List.length_cons]
        omega
      exact ⟨((e0 :: t).length + 1) / 2 - 1, by omega⟩
    rw [hm, List.take_succ_cons]
    exact ⟨_, rfl⟩
  have hmemgen : e0.params ∈ StrategyOptimizer.generateNextGeneration
      ((StrategyOptimizer.topHalf (StrategyOptimizer.sortResults rs)).map
        (·.params)) children := by
    rw [ht2]
    simp [StrategyOptimizer.generateNextGeneration]
  have hEv := evalPopulation_mem_eval sqrtFn ind cfg metric strategyName candles
    pop rs h1 e0 he0
  have he0rs2 := evalPopulation_mem_of_evalOne sqrtFn ind cfg metric strategyName
    candles _ rs2 e0.params e0 hmemgen hEv h3
  obtain ⟨b2, hb2, hle2⟩ := le_bestFitness rs2 e0 he0rs2
  exact ⟨b2, hb2, le_trans hble hle2⟩

/-- A valid parameter set (periods 3 and 5). -/
def goodPS : StrategyOptimizer.ParameterSet :=
  [("shortPeriod", 3), ("longPeriod", 5)]

/-- An invalid parameter set (short period 10 ≥ long period 5): its
strategy construction throws. -/
def badPS : StrategyOptimizer.ParameterSet :=
  [("shortPeriod", 10), ("longPeriod", 5)]

/-- A single candle (any strategy's warm-up exceeds it, so runs succeed
with zero signals). -/
def candles1 : List Candle := [mkCandle 0 100]

/-- The zero-trade summary every evaluation over `candles1` produces. -/
def witSummary : Summary :=
  BacktestEngine.generateSummary sqrt0 defaultConfig
    (BacktestEngine.initState defaultConfig)

/-- The evaluation entry for `goodPS` over `candles1`. -/
def witEntry : StrategyOptimizer.EvalEntry :=
  ⟨goodPS, witSummary, StrategyOptimizer.calculateFitness "profit" witSummary⟩

set_option maxRecDepth 4000

/-- The parameters `goodPS` resolves to: periods (3,5), the RSI / volume /
trend filters on by default, medium strength. -/
def goodParams : MovingAverageCrossover.MAParams :=
  { shortPeriod := 3, longPeriod := 5, useRsi := true, rsiPeriod := 14
    rsiOverbought := 70, rsiOversold := 30, useVolume := true
    volumeThreshold := 3/2, volumeAvgPeriod := 20, useTrend := true
    trendMaPeriod := 50, useMacd := false, macdFastPeriod := 12
    macdSlowPeriod := 26, macdSignalPeriod := 9, useBollingerBands := false
    bollingerPeriod := 20, bollingerStdDev := 2, usePriceAction := false
    candlePatternStrength := 3/2, generateAdditionalSignals := false
    filterStrength := "medium" }

/-- Constructing the strategy for `goodPS` succeeds with `goodParams`. -/
theorem createStrategyE_goodPS :
    StrategyOptimizer.createStrategyE "MovingAverageCrossover" goodPS =
      .ok goodParams := by
  have hres : MovingAverageCrossover.resolve (StrategyOptimizer.psToInput goodPS) =
      goodParams := rfl
  have hval : MovingAverageCrossover.validateParams goodParams = .ok () := by
    norm_num [MovingAverageCrossover.validateParams, goodParams]
  unfold StrategyOptimizer.createStrategyE
  rw [if_pos rfl]
  unfold MovingAverageCrossover.mk
  rw [hres, hval]
  rfl

/-- The run of `goodParams` over the single candle: zero signals, the
zero-trade summary. -/
theorem run_goodParams_candles1 :
    BacktestEngine.run sqrt0 defaultConfig
        (StrategyOptimizer.toStrategy ind0 goodParams) candles1 =
      { success := true, error := none, result := some witSummary
        trades := some [], signals := some [], equity := none } := rfl

/-- C7 witness: a one-element generation re-evaluated after elitism. -/
theorem C7_elitism_monotone_witness :
    ∃ b2, StrategyOptimizer.bestFitness [witEntry] = some b2 ∧
      StrategyOptimizer.calculateFitness "profit" witSummary ≤ b2 := by
  have hEvalOne : StrategyOptimizer.evalOne sqrt0 ind0 defaultConfig "profit"
      "MovingAverageCrossover" candles1 goodPS = .ok (some witEntry) := by
    unfold StrategyOptimizer.evalOne
    rw [createStrategyE_goodPS]
    rfl
  have h1 : StrategyOptimizer.evalPopulation sqrt0 ind0 defaultConfig "profit"
      "MovingAverageCrossover" candles1 [goodPS] = .ok [witEntry] := by
    unfold StrategyOptimizer.evalPopulation
    rw [hEvalOne]
    rfl
  have h3 : StrategyOptimizer.evalPopulation sqrt0 ind0 defaultConfig "profit"
      "MovingAverageCrossover" candles1
      (StrategyOptimizer.generateNextGeneration
        ((StrategyOptimizer.topHalf
          (StrategyOptimizer.sortResults [witEntry])).map (·.params)) []) =
      .ok [witEntry] := h1
  exact C7_elitism_monotone sqrt0 ind0 defaultConfig "profit"
    "MovingAverageCrossover" candles1 [goodPS] [] [witEntry] [witEntry]
    (StrategyOptimizer.calculateFitness "profit" witSummary) h1 rfl h3

/-- Evaluating one parameter set whose construction succeeds reduces to its
pure outcome (`successEntry`): run failures yield no entry, successes yield
the ranked entry, and no exception escapes. -/
theorem evalOne_eq_successEntry (sqrtFn : ℚ → ℚ) (ind : Indicators)
    (cfg : EngineConfig) (metric strategyName : String) (candles : List Candle)
    (ps : StrategyOptimizer.ParameterSet)
    (mp : MovingAverageCrossover.MAParams)
    (hmp : StrategyOptimizer.createStrategyE strategyName ps = .ok mp) :
    StrategyOptimizer.evalOne sqrtFn ind cfg metric strategyName candles ps =
      .ok (StrategyOptimizer.successEntry sqrtFn ind cfg metric strategyName
        candles ps) := by
  unfold StrategyOptimizer.evalOne StrategyOptimizer.successEntry
  rw [hmp]
  cases hs : (BacktestEngine.run sqrtFn cfg (StrategyOptimizer.toStrategy ind mp)
      candles).success with
  | false => simp [hs]
  | true =>
    cases hr : (BacktestEngine.run sqrtFn cfg
        (StrategyOptimizer.toStrategy ind mp) candles).result with
    | none => simp [hs, hr]
    | some s => simp [hs, hr]

/-- When every strategy construction in the population succeeds, the
population evaluation never aborts: it returns exactly the entries of the
successful runs, skipping the `success:false` ones. -/
theorem evalPopulation_isolates_run_failures (sqrtFn : ℚ → ℚ) (ind : Indicators)
    (cfg : EngineConfig) (metric strategyName : String) (candles : List Candle) :
    ∀ pop : List StrategyOptimizer.ParameterSet,
      (∀ p ∈ pop, ∃ mp,
        StrategyOptimizer.createStrategyE strategyName p = .ok mp) →
      StrategyOptimizer.evalPopulation sqrtFn ind cfg metric strategyName candles
        pop =
        .ok (pop.filterMap
          (StrategyOptimizer.successEntry sqrtFn ind cfg metric strategyName
            candles))
  | [], _ => rfl
  | p :: rest, hall => by
    obtain ⟨mp, hmp⟩ := hall p (List.mem_cons_self _ _)
    have hrest := evalPopulation_isolates_run_failures sqrtFn ind cfg metric
      strategyName candles rest (fun q hq => hall q (List.mem_cons_of_mem _ hq))
    have h1 := evalOne_eq_successEntry sqrtFn ind cfg metric strategyName candles
      p mp hmp
    unfold StrategyOptimizer.evalPopulation
    rw [h1, List.filterMap_cons]
    cases hSE : StrategyOptimizer.successEntry sqrtFn ind cfg metric strategyName
        candles p with
    | none => simp [hSE, hrest]
    | some entry => simp [hSE, hrest, Except.map]

/-- A construction exception anywhere in the population makes the whole
evaluation loop abort with that (or an earlier) exception. -/
theorem evalPopulation_error_of_mem (sqrtFn : ℚ → ℚ) (ind : Indicators)
    (cfg : EngineConfig) (metric strategyName : String) (candles : List Candle) :
    ∀ (pop : List StrategyOptimizer.ParameterSet)
      (ps : StrategyOptimizer.ParameterSet) (e : String),
      ps ∈ pop →
      StrategyOptimizer.createStrategyE strategyName ps = .error e →
      ∃ e2, StrategyOptimizer.evalPopulation sqrtFn ind cfg metric strategyName
        candles pop = .error e2
  | [], ps, e, hmem, _ => by simp at hmem
  | p :: rest, ps, e, hmem, herr => by
    unfold StrategyOptimizer.evalPopulation
    cases hE : StrategyOptimizer.evalOne sqrtFn ind cfg metric strategyName
        candles p with
    | error e2 => exact ⟨e2, rfl⟩
    | ok o =>
      rcases List.mem_cons.mp hmem with rfl | hmem2
      · unfold StrategyOptimizer.evalOne at hE
        rw [herr] at hE
        cases hE
      · obtain ⟨e2, he2⟩ := evalPopulation_error_of_mem sqrtFn ind cfg metric
          strategyName candles rest ps e hmem2 herr
        cases o with
        | none => exact ⟨e2, he2⟩
        | some entry =>
          refine ⟨e2, ?_⟩
          rw [he2]
          rfl

/-- ## C4 (counterexample)

Claim: a runtime error inside a single evaluation — including constructing
the strategy for one ParameterSet — is isolated to that evaluation and the
batch continues.  At the explicit input below, the first parameter set's
constructor throws (short period 10 ≥ long period 5) and the whole
`optimize` call returns `{success:false}`: the second (valid) parameter set
gets no result. -/
theorem C4_counterexample :
    (StrategyOptimizer.optimize sqrt0 ind0 defaultConfig "profit"
        "MovingAverageCrossover" candles1 1 (fun _ => []) [badPS, goodPS]).success
      = false ∧
    (StrategyOptimizer.optimize sqrt0 ind0 defaultConfig "profit"
        "MovingAverageCrossover" candles1 1 (fun _ => [])
        [badPS, goodPS]).allResults = [] ∧
    (StrategyOptimizer.optimize sqrt0 ind0 defaultConfig "profit"
        "MovingAverageCrossover" candles1 1 (fun _ => [])
        [badPS, goodPS]).bestParams = none :=
  ⟨rfl, rfl, rfl⟩

/-- ## C4 (amended)

An exception thrown while constructing the strategy for any ParameterSet of
the population aborts the entire `optimize` call (the outer catch converts
it to `{success:false}` with no results), for every generation count ≥ 1.
Only failures *inside* `BacktestEngine.run` are isolated: `run` catches
them and returns `success:false`, and the evaluation loop then skips that
parameter set, returning exactly the successful entries. -/
theorem C4_construction_error_aborts_batch :
    (∀ (sqrtFn : ℚ → ℚ) (ind : Indicators) (cfg : EngineConfig)
        (metric strategyName : String) (candles : List Candle)
        (childOracle : Nat → List StrategyOptimizer.ParameterSet) (gens : Nat)
        (pre post : List StrategyOptimizer.ParameterSet)
        (ps : StrategyOptimizer.ParameterSet) (e : String),
      StrategyOptimizer.createStrategyE strategyName ps = .error e →
      0 < gens → candles ≠ [] →
      (StrategyOptimizer.optimize sqrtFn ind cfg metric strategyName candles gens
          childOracle (pre ++ ps :: post)).success = false ∧
      (StrategyOptimizer.optimize sqrtFn ind cfg metric strategyName candles gens
          childOracle (pre ++ ps :: post)).allResults = [] ∧
      (StrategyOptimizer.optimize sqrtFn ind cfg metric strategyName candles gens
          childOracle (pre ++ ps :: post)).bestParams = none) ∧
    (∀ (sqrtFn : ℚ → ℚ) (ind : Indicators) (cfg : EngineConfig)
        (metric strategyName : String) (candles : List Candle)
        (pop : List StrategyOptimizer.ParameterSet),
      (∀ p ∈ pop, ∃ mp,
        StrategyOptimizer.createStrategyE strategyName p = .ok mp) →
      StrategyOptimizer.evalPopulation sqrtFn ind cfg metric strategyName candles
        pop =
        .ok (pop.filterMap
          (StrategyOptimizer.successEntry sqrtFn ind cfg metric strategyName
            candles))) := by
  constructor
  · intro sqrtFn ind cfg metric strategyName candles childOracle gens pre post ps
      e herr hg hc
    obtain ⟨e2, he2⟩ := evalPopulation_error_of_mem sqrtFn ind cfg metric
      strategyName candles (pre ++ ps :: post) ps e (by simp) herr
    cases gens with
    | zero => exact absurd hg (by omega)
    | succ n =>
      unfold StrategyOptimizer.optimize
      rw [if_neg hc]
      unfold StrategyOptimizer.optimizeLoop
      rw [he2]
      exact ⟨rfl, rfl, rfl⟩
  · intro sqrtFn ind cfg metric strategyName candles pop hall
    exact evalPopulation_isolates_run_failures sqrtFn ind cfg metric strategyName
      candles pop hall

/-- C4 witness: the abort at a concrete two-element batch and the
isolation of the run-level outcome for a valid singleton population. -/
theorem C4_construction_error_aborts_batch_witness :
    (StrategyOptimizer.optimize sqrt0 ind0 defaultConfig "profit"
        "MovingAverageCrossover" candles1 1 (fun _ => [])
        ([] ++ badPS :: [goodPS])).success = false ∧
    StrategyOptimizer.evalPopulation sqrt0 ind0 defaultConfig "profit"
        "MovingAverageCrossover" candles1 [goodPS] =
      .ok ([goodPS].filterMap (StrategyOptimizer.successEntry sqrt0 ind0
        defaultConfig "profit" "MovingAverageCrossover" candles1)) := by
  constructor
  · exact (C4_construction_error_aborts_batch.1 sqrt0 ind0 defaultConfig "profit"
      "MovingAverageCrossover" candles1 (fun _ => []) 1 [] [goodPS] badPS
      "短期移動平均線の期間は長期移動平均線の期間よりも短い必要があります" rfl
      (by omega) (by simp [candles1])).1
  · refine C4_construction_error_aborts_batch.2 sqrt0 ind0 defaultConfig "profit"
      "MovingAverageCrossover" candles1 [goodPS] ?_
    intro q hq
    have hq2 : q = goodPS := by simpa using hq
    subst hq2
    exact ⟨goodParams, createStrategyE_goodPS⟩

end AutoTrade
